import Mathlib

deriving instance DecidableEq for Except

/-!
Verification development for the IndoorMapParser repository
(src/indoorMap.h, src/indoorMapParser.h).

Embedding conventions:
* C++ float values are modelled as exact rationals (ℚ).  Floating-point
  rounding is out of scope; the geometric/structural claims below do not
  depend on it.
* std::sqrt (used only by Point2D::length) is modelled by ratSqrt, a
  computable rational square root that is exact on perfect squares and a
  positive floor approximation otherwise.
* The rapidxml element tree is modelled by XNode (name, attributes in
  document order, children in document order).
* Exceptions (std::stof / std::stoi throwing std::invalid_argument, and
  their uncaught propagation through the parser) are modelled by
  Except String.
* The virtual IndoorListener is modelled as a record of pure hooks.  An
  enter hook of a vetoable kind returns (continue?, possibly-mutated
  entity); a leave hook returns the possibly-mutated entity.  (C++
  observers receive mutable references; statefulness of observers is not
  modelled.)
* std::vector push_back copies its argument; the model therefore appends
  the *current value* at the point of the push, which is what produces
  the shallow-wall behaviour of processObstacles.
* C++ enum fields (WallMaterial, DoorType, ObstacleType, POIType,
  PolygonMethod) are produced by unchecked integer casts in the parser;
  they are modelled as the raw Int ordinal.
-/

namespace IndoorMap

/-- 2D vector, models struct Point2D (indoorMap.h). -/
structure Point2D where
  x : ℚ
  y : ℚ
deriving DecidableEq

instance : Add Point2D := ⟨fun p q => ⟨p.x + q.x, p.y + q.y⟩⟩

instance : Sub Point2D := ⟨fun p q => ⟨p.x - q.x, p.y - q.y⟩⟩

instance : HMul Point2D ℚ Point2D := ⟨fun p v => ⟨p.x * v, p.y * v⟩⟩

instance : HDiv Point2D ℚ Point2D := ⟨fun p v => ⟨p.x / v, p.y / v⟩⟩

theorem Point2D.add_def (p q : Point2D) : p + q = ⟨p.x + q.x, p.y + q.y⟩ := rfl

theorem Point2D.sub_def (p q : Point2D) : p - q = ⟨p.x - q.x, p.y - q.y⟩ := rfl

theorem Point2D.mul_def (p : Point2D) (v : ℚ) : p * v = ⟨p.x * v, p.y * v⟩ := rfl

theorem Point2D.div_def (p : Point2D) (v : ℚ) : p / v = ⟨p.x / v, p.y / v⟩ := rfl

/-- Largest j with j ≤ k and j * j ≤ n (0 when there is none). -/
def natSqrtAux (n : ℕ) : ℕ → ℕ
  | 0 => 0
  | k + 1 => if (k + 1) * (k + 1) ≤ n then k + 1 else natSqrtAux n k

/-- Integer square root (floor), structurally recursive. -/
def natSqrt (n : ℕ) : ℕ := natSqrtAux n n

/-- Model of std::sqrt on the rational embedding of float: for q = n/d in
lowest terms, ratSqrt q = natSqrt (n * d) / d, which is the exact square
root whenever q is the square of a rational, and a positive floor-style
approximation for other positive inputs.  Non-positive input gives 0. -/
def ratSqrt (q : ℚ) : ℚ :=
  if q ≤ 0 then 0 else (natSqrt (q.num.toNat * q.den) : ℚ) / (q.den : ℚ)

/-- Point2D::length, models float length() const (indoorMap.h). -/
def Point2D.length (p : Point2D) : ℚ := ratSqrt (p.x * p.x + p.y * p.y)

/-- Point2D::normalized, models Point2D normalized() const. -/
def Point2D.normalized (p : Point2D) : Point2D := p / p.length

/-- Point2D::orthogonal. -/
def Point2D.orthogonal (p : Point2D) : Point2D := ⟨-p.y, p.x⟩

/-- Polygon2D (indoorMap.h); method stores the raw integer ordinal of
PolygonMethod produced by the unchecked cast in processOutline. -/
structure Polygon2D where
  name : String
  method : Int
  isOutdoor : Bool
  points : List Point2D
deriving DecidableEq

/-- Outline (indoorMap.h). -/
structure Outline where
  polygons : List Polygon2D
deriving DecidableEq

/-- PointOfInterest (indoorMap.h); type stores the raw POIType ordinal. -/
structure PointOfInterest where
  name : String
  type : Int
  x : ℚ
  y : ℚ
deriving DecidableEq

/-- GroundtruthPoint (indoorMap.h). -/
structure GroundtruthPoint where
  id : Int
  x : ℚ
  y : ℚ
  z : ℚ
  heightAboveFloor : ℚ
deriving DecidableEq

/-- FingerprintLocation (indoorMap.h). -/
structure FingerprintLocation where
  name : String
  x : ℚ
  y : ℚ
  z : ℚ
  heightAboveFloor : ℚ
deriving DecidableEq

/-- Beacon (indoorMap.h). -/
structure Beacon where
  name : String
  macAddress : String
  uuid : String
  major : String
  minor : String
  x : ℚ
  y : ℚ
  z : ℚ
  heightAboveFloor : ℚ
  mdl_txp : ℚ
  mdl_exp : ℚ
  mdl_waf : ℚ
deriving DecidableEq

/-- AccessPoint (indoorMap.h). -/
structure AccessPoint where
  name : String
  macAddress : String
  x : ℚ
  y : ℚ
  z : ℚ
  heightAboveFloor : ℚ
  mdl_txp : ℚ
  mdl_exp : ℚ
  mdl_waf : ℚ
deriving DecidableEq

/-- WallDoor (indoorMap.h), with the WallElement base fields flattened in;
material and type store the raw enum ordinals. -/
structure WallDoor where
  material : Int
  width : ℚ
  height : ℚ
  atLinePos : ℚ
  type : Int
  leftRight : Bool
  inOut : Bool
deriving DecidableEq

/-- WallWindow (indoorMap.h), with the WallElement base fields flattened in. -/
structure WallWindow where
  material : Int
  width : ℚ
  height : ℚ
  atLinePos : ℚ
  atHeigth : ℚ
  inOut : Bool
deriving DecidableEq

/-- WallSegmentType (indoorMap.h). -/
inductive WallSegmentType where
  | Wall
  | Door
  | Window
deriving DecidableEq

/-- WallSegment2D (indoorMap.h).  The C++ field end is called endp here
(end is a reserved word in Lean). -/
structure WallSegment2D where
  listIndex : Int
  type : WallSegmentType
  start : Point2D
  endp : Point2D
deriving DecidableEq

/-- Wall (indoorMap.h); material and type store the raw enum ordinals. -/
structure Wall where
  material : Int
  type : Int
  x1 : ℚ
  y1 : ℚ
  x2 : ℚ
  y2 : ℚ
  thickness : ℚ
  height : ℚ
  doors : List WallDoor
  windows : List WallWindow
  segments : List WallSegment2D
deriving DecidableEq

/-- Wall::start(). -/
def Wall.start (w : Wall) : Point2D := ⟨w.x1, w.y1⟩

/-- Wall::end() (end is reserved in Lean). -/
def Wall.endp (w : Wall) : Point2D := ⟨w.x2, w.y2⟩

/-- Floor (indoorMap.h). -/
structure Floor where
  atHeight : ℚ
  height : ℚ
  name : String
  outline : Outline
  walls : List Wall
  accessPoints : List AccessPoint
  beacons : List Beacon
  groundtruthPoints : List GroundtruthPoint
  fingerprintLocations : List FingerprintLocation
  pois : List PointOfInterest
deriving DecidableEq

/-- EarthPosMapPos (indoorMap.h). -/
structure EarthPosMapPos where
  lat : ℚ
  lon : ℚ
  alt : ℚ
  x : ℚ
  y : ℚ
  z : ℚ
deriving DecidableEq

/-- EarthRegistration (indoorMap.h). -/
structure EarthRegistration where
  correspondences : List EarthPosMapPos
deriving DecidableEq

/-- Map (indoorMap.h). -/
structure Map where
  width : ℚ
  depth : ℚ
  earthRegistration : EarthRegistration
  floors : List Floor
deriving DecidableEq

/-- A rapidxml element: tag name, attributes in document order, child
elements in document order. -/
inductive XNode where
  | mk (name : String) (attrs : List (String × String)) (children : List XNode)

/-- Tag name of an element. -/
def XNode.name : XNode → String
  | .mk n _ _ => n

/-- Attribute list of an element. -/
def XNode.attrs : XNode → List (String × String)
  | .mk _ a _ => a

/-- Child elements of an element. -/
def XNode.children : XNode → List XNode
  | .mk _ _ c => c

/-- tryGetAttribute (indoorMapParser.h): first attribute with the given
name, like rapidxml first_attribute. -/
def tryGetAttribute (node : XNode) (attName : String) : Option String :=
  (node.attrs.find? (fun p => decide (p.1 = attName))).map (fun p => p.2)

/-- first_node(name): first child element with the given tag name. -/
def firstNode (node : XNode) (nodeName : String) : Option XNode :=
  node.children.find? (fun c => decide (c.name = nodeName))

/-- foreachNode(node, nodeName, ...): the children with the given tag
name, in document order. -/
def namedChildren (node : XNode) (nodeName : String) : List XNode :=
  node.children.filter (fun c => decide (c.name = nodeName))

/-- Digit run: value accumulated left to right, count of digits, rest. -/
def takeDigits : List Char → ℕ × ℕ × List Char
  | [] => (0, 0, [])
  | c :: rest =>
    if c.isDigit then
      let (v, k, r) := takeDigits rest
      -- digits contribute positionally: c is the most significant of c :: digits
      ((c.toNat - 48) * 10 ^ k + v, k + 1, r)
    else (0, 0, c :: rest)

/-- Model of std::stof (via strtof): skip leading whitespace, optional
sign, then the longest prefix of the form digits[.digits]; at least one
digit is required or the call throws std::invalid_argument.  Trailing
garbage after a valid prefix is ignored.  (The hexadecimal, exponent,
inf and nan forms of strtof are not exercised by any claim and are
omitted.)  Out-of-range is not modelled (ℚ is unbounded). -/
def stofQ (s : String) : Except String ℚ :=
  let cs := s.data.dropWhile Char.isWhitespace
  let (sign, cs) : Int × List Char :=
    match cs with
    | '-' :: r => (-1, r)
    | '+' :: r => (1, r)
    | r => (1, r)
  let (ip, ik, cs) := takeDigits cs
  let (fp, fk, _) : ℕ × ℕ × List Char :=
    match cs with
    | '.' :: r => takeDigits r
    | _ => (0, 0, [])
  if ik = 0 ∧ fk = 0 then .error "stof: invalid argument"
  else .ok (mkRat (sign * ((ip : Int) * 10 ^ fk + (fp : Int))) (10 ^ fk))

/-- Model of std::stoi (via strtol, base 10): skip leading whitespace,
optional sign, longest digit prefix; at least one digit is required or
the call throws std::invalid_argument. -/
def stoiQ (s : String) : Except String Int :=
  let cs := s.data.dropWhile Char.isWhitespace
  let (sign, cs) : Int × List Char :=
    match cs with
    | '-' :: r => (-1, r)
    | '+' :: r => (1, r)
    | r => (1, r)
  let (ip, ik, _) := takeDigits cs
  if ik = 0 then .error "stoi: invalid argument"
  else .ok (sign * (ip : Int))

/-- Model of reading a bool from an istringstream with std::boolalpha
(boolAttribute, indoorMapParser.h): leading whitespace is skipped, then
the target sequences "true" and "false" are matched; on a match the
corresponding value is stored, otherwise extraction fails and the
(C++11) failure semantics store false.  No exception is ever raised. -/
def cppReadBool (s : String) : Bool :=
  let cs := s.data.dropWhile Char.isWhitespace
  if "true".data.isPrefixOf cs then true
  else if "false".data.isPrefixOf cs then false
  else false

/-- floatAttribute (indoorMapParser.h): default when absent, stof when
present; stof failure propagates. -/
def floatAttribute (node : XNode) (attName : String) (defaultValue : ℚ) :
    Except String ℚ :=
  match tryGetAttribute node attName with
  | some v => stofQ v
  | none => .ok defaultValue

/-- floatAttribute called with NAN as the default, paired with the
std::isnan test at the call sites: none models the NaN sentinel, which
stofQ itself never produces. -/
def floatAttributeNaN (node : XNode) (attName : String) :
    Except String (Option ℚ) :=
  match tryGetAttribute node attName with
  | some v => (stofQ v).map some
  | none => .ok none

/-- intAttribute (indoorMapParser.h). -/
def intAttribute (node : XNode) (attName : String) (defaultValue : Int) :
    Except String Int :=
  match tryGetAttribute node attName with
  | some v => stoiQ v
  | none => .ok defaultValue

/-- boolAttribute (indoorMapParser.h): total, never a parse failure. -/
def boolAttribute (node : XNode) (attName : String) (defaultValue : Bool) :
    Bool :=
  match tryGetAttribute node attName with
  | some v => cppReadBool v
  | none => defaultValue

/-- strAttribute (indoorMapParser.h). -/
def strAttribute (node : XNode) (attName : String) (defaultValue : String) :
    String :=
  match tryGetAttribute node attName with
  | some v => v
  | none => defaultValue

/-- Explicit bind for Except String, the model of C++ exception
propagation through the parser call chain. -/
def ebind {α β : Type} (x : Except String α) (f : α → Except String β) :
    Except String β :=
  match x with
  | .error e => .error e
  | .ok a => f a

/-- IndoorListener (indoorMap.h) as a record of pure hooks.  Vetoable
enter hooks return (continue?, possibly-mutated entity); all other hooks
return the possibly-mutated entity (C++ passes mutable references). -/
structure IndoorListener where
  enterMap : Map → Map
  leaveMap : Map → Map
  enterEarthRegistration : EarthRegistration → EarthRegistration
  leaveEarthRegistration : EarthRegistration → EarthRegistration
  enterEarthPosMapPos : EarthPosMapPos → EarthPosMapPos
  leaveEarthPosMapPos : EarthPosMapPos → EarthPosMapPos
  enterFloor : Floor → Bool × Floor
  leaveFloor : Floor → Floor
  enterOutline : Outline → Bool × Outline
  leaveOutline : Outline → Outline
  enterPointOfInterests : List PointOfInterest → List PointOfInterest
  leavePointOfInterests : List PointOfInterest → List PointOfInterest
  enterGrundtruthPoints : List GroundtruthPoint → List GroundtruthPoint
  leaveGrundtruthPoints : List GroundtruthPoint → List GroundtruthPoint
  enterAccessPoints : List AccessPoint → List AccessPoint
  leaveAccessPoints : List AccessPoint → List AccessPoint
  enterBeacons : List Beacon → List Beacon
  leaveBeacons : List Beacon → List Beacon
  enterFingerprintLocations : List FingerprintLocation → List FingerprintLocation
  leaveFingerprintLocations : List FingerprintLocation → List FingerprintLocation
  enterWalls : List Wall → List Wall
  leaveWalls : List Wall → List Wall
  enterWall : Wall → Bool × Wall
  leaveWall : Wall → Wall
  enterWallDoor : WallDoor → Bool × WallDoor
  leaveWallDoor : WallDoor → WallDoor
  enterWallWindow : WallWindow → Bool × WallWindow
  leaveWallWindow : WallWindow → WallWindow

/-- The default IndoorListener: every hook is a no-op and every vetoable
hook returns true.  readFromFile substitutes this listener when it is
handed a null pointer. -/
def nopListener : IndoorListener where
  enterMap := id
  leaveMap := id
  enterEarthRegistration := id
  leaveEarthRegistration := id
  enterEarthPosMapPos := id
  leaveEarthPosMapPos := id
  enterFloor := fun f => (true, f)
  leaveFloor := id
  enterOutline := fun o => (true, o)
  leaveOutline := id
  enterPointOfInterests := id
  leavePointOfInterests := id
  enterGrundtruthPoints := id
  leaveGrundtruthPoints := id
  enterAccessPoints := id
  leaveAccessPoints := id
  enterBeacons := id
  leaveBeacons := id
  enterFingerprintLocations := id
  leaveFingerprintLocations := id
  enterWalls := id
  leaveWalls := id
  enterWall := fun w => (true, w)
  leaveWall := id
  enterWallDoor := fun d => (true, d)
  leaveWallDoor := id
  enterWallWindow := fun w => (true, w)
  leaveWallWindow := id

/-- Door segment built by the first loop of generateWallSegments
(indoorMapParser.h, lines 450-465): anchor at start + dir * atLinePos,
second point one door-width along ±normalized dir (leftRight true means
the negative direction), then the point pair is swapped when the second
point has the strictly smaller x. -/
def mkDoorSeg (wall : Wall) (i : ℕ) (door : WallDoor) : WallSegment2D :=
  let dir := wall.endp - wall.start
  let s := wall.start + dir * door.atLinePos
  let e := s + dir.normalized * (if door.leftRight then -door.width else door.width)
  if e.x < s.x then ⟨(i : Int), .Door, e, s⟩ else ⟨(i : Int), .Door, s, e⟩

/-- Window segment built by the second loop of generateWallSegments
(lines 468-484): the anchor is the centre, the segment spans
centre ± normalized dir * width / 2, x-swapped like the door case. -/
def mkWindowSeg (wall : Wall) (i : ℕ) (window : WallWindow) : WallSegment2D :=
  let dir := wall.endp - wall.start
  let center := wall.start + dir * window.atLinePos
  let s := center - dir.normalized * (window.width / 2)
  let e := center + dir.normalized * (window.width / 2)
  if e.x < s.x then ⟨(i : Int), .Window, e, s⟩ else ⟨(i : Int), .Window, s, e⟩

/-- The door loop: one segment per door, listIndex counting up from i. -/
def doorSegsFrom (wall : Wall) (i : ℕ) : List WallDoor → List WallSegment2D
  | [] => []
  | d :: rest => mkDoorSeg wall i d :: doorSegsFrom wall (i + 1) rest

/-- The window loop: one segment per window, listIndex counting up from i. -/
def windowSegsFrom (wall : Wall) (i : ℕ) : List WallWindow → List WallSegment2D
  | [] => []
  | w :: rest => mkWindowSeg wall i w :: windowSegsFrom wall (i + 1) rest

/-- Insert into a list sorted by segment-start x. -/
def insertByStartX (s : WallSegment2D) : List WallSegment2D → List WallSegment2D
  | [] => [s]
  | t :: rest =>
    if t.start.x ≤ s.start.x then t :: insertByStartX s rest else s :: t :: rest

/-- Model of the std::sort call (comparator a.start.x < b.start.x) as a
stable insertion sort by start x.  std::sort leaves the relative order
of tied keys unspecified; no claim below depends on the tie order. -/
def sortByStartX (l : List WallSegment2D) : List WallSegment2D :=
  l.foldr insertByStartX []

/-- The stitching loop of generateWallSegments (lines 499-520): before
the first door/window segment a filler wall segment from wStart, after
each door/window segment a filler to the next one, and after the last
one a filler to wEnd.  An empty list produces no output (the loop body
never runs); that case is unreachable from generateWallSegments. -/
def stitch (wEnd : Point2D) : Point2D → List WallSegment2D → List WallSegment2D
  | _, [] => []
  | cur, [s] => [⟨-1, .Wall, cur, s.start⟩, s, ⟨-1, .Wall, s.endp, wEnd⟩]
  | cur, s :: s2 :: rest =>
    ⟨-1, .Wall, cur, s.start⟩ :: s :: stitch wEnd s.endp (s2 :: rest)

/-- The door and window segments of a wall as generated by the two loops
of generateWallSegments, before sorting. -/
def openingSegs (w : Wall) : List WallSegment2D :=
  doorSegsFrom w 0 w.doors ++ windowSegsFrom w 0 w.windows

/-- The x-ordered endpoint pair used by the stitching phase
(lines 492-496): wStart gets the strictly smaller x, ties keep the
original orientation. -/
def wallSpan (w : Wall) : Point2D × Point2D :=
  if w.endp.x < w.start.x then (w.endp, w.start) else (w.start, w.endp)

/-- generateWallSegments (indoorMapParser.h, lines 439-521). -/
def generateWallSegments (wall : Wall) : Wall :=
  if wall.doors.length = 0 ∧ wall.windows.length = 0 then
    { wall with segments := wall.segments ++ [⟨-1, .Wall, wall.start, wall.endp⟩] }
  else
    let segments := sortByStartX (openingSegs wall)
    let sp := wallSpan wall
    { wall with segments := wall.segments ++ stitch sp.2 sp.1 segments }

/-- The attribute-reading prefix of the per-wall lambda in
processObstacles (lines 530-550), including the height fallback to the
floor height (absent or zero) and the thickness default 0.15. -/
def processWallAttrs (floorHeight : ℚ) (xWall : XNode) : Except String Wall :=
  ebind (intAttribute xWall "material" 0) fun material =>
  ebind (intAttribute xWall "type" 0) fun type =>
  ebind (floatAttribute xWall "x1" 0) fun x1 =>
  ebind (floatAttribute xWall "y1" 0) fun y1 =>
  ebind (floatAttribute xWall "x2" 0) fun x2 =>
  ebind (floatAttribute xWall "y2" 0) fun y2 =>
  ebind (floatAttributeNaN xWall "height") fun heightRaw =>
  ebind (floatAttributeNaN xWall "thickness") fun thicknessRaw =>
  let height := match heightRaw with
    | none => floorHeight
    | some h => if h = 0 then floorHeight else h
  let thickness := match thicknessRaw with
    | none => mkRat 15 100
    | some t => t
  .ok { material, type, x1, y1, x2, y2, thickness, height,
        doors := [], windows := [], segments := [] }

/-- Attribute reading of one door element (lines 557-566). -/
def processDoorAttrs (xDoor : XNode) : Except String WallDoor :=
  ebind (intAttribute xDoor "type" 0) fun type =>
  ebind (intAttribute xDoor "material" 0) fun material =>
  ebind (floatAttribute xDoor "x01" 0) fun atLinePos =>
  ebind (floatAttribute xDoor "width" 0) fun width =>
  ebind (floatAttribute xDoor "heigth" 0) fun height =>
  let leftRight := boolAttribute xDoor "lr" false
  let inOut := boolAttribute xDoor "io" false
  .ok { material, width, height, atLinePos, type, leftRight, inOut }

/-- The door loop of processObstacles (lines 557-573): parse, enterWallDoor
veto gate, push the entered value, then leaveWallDoor (whose mutations
are lost: the pushed copy is already in the vector). -/
def processDoors (L : IndoorListener) : List XNode → Except String (List WallDoor)
  | [] => .ok []
  | x :: rest =>
    ebind (processDoorAttrs x) fun door =>
    let (ok, door) := L.enterWallDoor door
    if ok then
      ebind (processDoors L rest) fun doors =>
      let _ := L.leaveWallDoor door
      .ok (door :: doors)
    else processDoors L rest

/-- Attribute reading of one window element (lines 576-585). -/
def processWindowAttrs (xWindow : XNode) : Except String WallWindow :=
  ebind (intAttribute xWindow "material" 0) fun material =>
  ebind (floatAttribute xWindow "x01" 0) fun atLinePos =>
  ebind (floatAttribute xWindow "y" 0) fun atHeigth =>
  ebind (floatAttribute xWindow "width" 0) fun width =>
  ebind (floatAttribute xWindow "height" 0) fun height =>
  let inOut := boolAttribute xWindow "io" false
  .ok { material, width, height, atLinePos, atHeigth, inOut }

/-- The window loop of processObstacles (lines 576-592). -/
def processWindows (L : IndoorListener) : List XNode → Except String (List WallWindow)
  | [] => .ok []
  | x :: rest =>
    ebind (processWindowAttrs x) fun window =>
    let (ok, window) := L.enterWallWindow window
    if ok then
      ebind (processWindows L rest) fun windows =>
      let _ := L.leaveWallWindow window
      .ok (window :: windows)
    else processWindows L rest

/-- One iteration of the wall loop of processObstacles (lines 529-597).
Returns none when enterWall vetoes.  Otherwise returns the pair
(value push_back copied into floor.walls at enterWall time,
 fully populated value later handed to leaveWall):
the C++ code pushes the wall into floor.walls *before* parsing its
doors and windows and before generateWallSegments runs, so the two
components differ whenever the wall has children. -/
def processWall (L : IndoorListener) (floor : Floor) (xWall : XNode) :
    Except String (Option (Wall × Wall)) :=
  ebind (processWallAttrs floor.height xWall) fun wall =>
  let (ok, wall) := L.enterWall wall
  if ok then
    let pushed := wall
    ebind (processDoors L (namedChildren xWall "door")) fun doors =>
    let wall := { wall with doors := wall.doors ++ doors }
    ebind (processWindows L (namedChildren xWall "window")) fun windows =>
    let wall := { wall with windows := wall.windows ++ windows }
    let wall := generateWallSegments wall
    let _ := L.leaveWall wall
    .ok (some (pushed, wall))
  else .ok none

/-- The wall loop: pushed walls in order, paired with the trace of the
walls handed to leaveWall. -/
def processWallList (L : IndoorListener) (floor : Floor) :
    List XNode → Except String (List (Wall × Wall))
  | [] => .ok []
  | x :: rest =>
    ebind (processWall L floor x) fun r =>
    ebind (processWallList L floor rest) fun rs =>
    match r with
    | some pw => .ok (pw :: rs)
    | none => .ok rs

/-- processObstacles (lines 523-599).  The second component of the result
is the trace of arguments handed to leaveWall, in call order. -/
def processObstacles (L : IndoorListener) (xObstacles : XNode) (floor : Floor) :
    Except String (Floor × List Wall) :=
  let walls := L.enterWalls floor.walls
  let floor := { floor with walls := walls }
  ebind (processWallList L floor (namedChildren xObstacles "wall")) fun rs =>
  let floor := { floor with walls := floor.walls ++ rs.map Prod.fst }
  let walls2 := L.leaveWalls floor.walls
  .ok ({ floor with walls := walls2 }, rs.map Prod.snd)

/-- The point loop inside one polygon (lines 318-323). -/
def processPolygonPoints : List XNode → Except String (List Point2D)
  | [] => .ok []
  | x :: rest =>
    ebind (floatAttribute x "x" 0) fun px =>
    ebind (floatAttribute x "y" 0) fun py =>
    ebind (processPolygonPoints rest) fun ps =>
    .ok (⟨px, py⟩ :: ps)

/-- The polygon loop of processOutline (lines 311-326). -/
def processPolygons : List XNode → Except String (List Polygon2D)
  | [] => .ok []
  | x :: rest =>
    ebind (intAttribute x "method" 0) fun method =>
    let name := strAttribute x "name" ""
    let isOutdoor := boolAttribute x "outdoor" false
    ebind (processPolygonPoints (namedChildren x "point")) fun points =>
    ebind (processPolygons rest) fun ps =>
    .ok ({ name, method, isOutdoor, points } :: ps)

/-- processOutline (lines 307-331): none when enterOutline vetoes. -/
def processOutline (L : IndoorListener) (xOutline : XNode) :
    Except String (Option Outline) :=
  let outline : Outline := ⟨[]⟩
  let (ok, outline) := L.enterOutline outline
  if ok then
    ebind (processPolygons (namedChildren xOutline "polygon")) fun ps =>
    let outline := { outline with polygons := outline.polygons ++ ps }
    .ok (some (L.leaveOutline outline))
  else .ok none

/-- The poi loop of processPointOfInterests (lines 336-345). -/
def parsePois : List XNode → Except String (List PointOfInterest)
  | [] => .ok []
  | x :: rest =>
    let name := strAttribute x "name" ""
    ebind (intAttribute x "type" 0) fun type =>
    ebind (floatAttribute x "x" 0) fun px =>
    ebind (floatAttribute x "y" 0) fun py =>
    ebind (parsePois rest) fun ps =>
    .ok ({ name, type, x := px, y := py } :: ps)

/-- processPointOfInterests (lines 333-348). -/
def processPointOfInterests (L : IndoorListener) (xPois : XNode)
    (pois : List PointOfInterest) : Except String (List PointOfInterest) :=
  let pois := L.enterPointOfInterests pois
  ebind (parsePois (namedChildren xPois "poi")) fun ps =>
  .ok (L.leavePointOfInterests (pois ++ ps))

/-- The gtpoint loop (lines 353-364): z is resolved to
floor.atHeight + heightAboveFloor at parse time. -/
def parseGtPoints (atHeight : ℚ) : List XNode → Except String (List GroundtruthPoint)
  | [] => .ok []
  | x :: rest =>
    ebind (intAttribute x "id" 0) fun pid =>
    ebind (floatAttribute x "x" 0) fun px =>
    ebind (floatAttribute x "y" 0) fun py =>
    ebind (floatAttribute x "z" 0) fun hz =>
    ebind (parseGtPoints atHeight rest) fun ps =>
    .ok ({ id := pid, x := px, y := py, z := atHeight + hz,
           heightAboveFloor := hz } :: ps)

/-- processGroundtruthPoints (lines 350-366). -/
def processGroundtruthPoints (L : IndoorListener) (xGT : XNode) (floor : Floor) :
    Except String Floor :=
  let gts := L.enterGrundtruthPoints floor.groundtruthPoints
  ebind (parseGtPoints floor.atHeight (namedChildren xGT "gtpoint")) fun ps =>
  .ok { floor with groundtruthPoints := L.leaveGrundtruthPoints (gts ++ ps) }

/-- The accesspoint loop (lines 371-387). -/
def parseAccessPoints (atHeight : ℚ) : List XNode → Except String (List AccessPoint)
  | [] => .ok []
  | x :: rest =>
    let name := strAttribute x "name" ""
    let macAddress := strAttribute x "mac" ""
    ebind (floatAttribute x "x" 0) fun px =>
    ebind (floatAttribute x "y" 0) fun py =>
    ebind (floatAttribute x "z" 0) fun hz =>
    ebind (floatAttribute x "mdl_txp" 0) fun txp =>
    ebind (floatAttribute x "mdl_exp" 0) fun exp =>
    ebind (floatAttribute x "mdl_waf" 0) fun waf =>
    ebind (parseAccessPoints atHeight rest) fun ps =>
    .ok ({ name, macAddress, x := px, y := py, z := atHeight + hz,
           heightAboveFloor := hz, mdl_txp := txp, mdl_exp := exp,
           mdl_waf := waf } :: ps)

/-- processAccessPoints (lines 368-389). -/
def processAccessPoints (L : IndoorListener) (xAP : XNode) (floor : Floor) :
    Except String Floor :=
  let aps := L.enterAccessPoints floor.accessPoints
  ebind (parseAccessPoints floor.atHeight (namedChildren xAP "accesspoint")) fun ps =>
  .ok { floor with accessPoints := L.leaveAccessPoints (aps ++ ps) }

/-- The beacon loop (lines 394-414). -/
def parseBeacons (atHeight : ℚ) : List XNode → Except String (List Beacon)
  | [] => .ok []
  | x :: rest =>
    let name := strAttribute x "name" ""
    let macAddress := strAttribute x "mac" ""
    let uuid := strAttribute x "uuid" ""
    let major := strAttribute x "major" ""
    let minor := strAttribute x "minor" ""
    ebind (floatAttribute x "x" 0) fun px =>
    ebind (floatAttribute x "y" 0) fun py =>
    ebind (floatAttribute x "z" 0) fun hz =>
    ebind (floatAttribute x "mdl_txp" 0) fun txp =>
    ebind (floatAttribute x "mdl_exp" 0) fun exp =>
    ebind (floatAttribute x "mdl_waf" 0) fun waf =>
    ebind (parseBeacons atHeight rest) fun ps =>
    .ok ({ name, macAddress, uuid, major, minor, x := px, y := py,
           z := atHeight + hz, heightAboveFloor := hz, mdl_txp := txp,
           mdl_exp := exp, mdl_waf := waf } :: ps)

/-- processBeacons (lines 391-416). -/
def processBeacons (L : IndoorListener) (xBeacons : XNode) (floor : Floor) :
    Except String Floor :=
  let bs := L.enterBeacons floor.beacons
  ebind (parseBeacons floor.atHeight (namedChildren xBeacons "beacon")) fun ps =>
  .ok { floor with beacons := L.leaveBeacons (bs ++ ps) }

/-- The location loop of processFingerprints (lines 421-432). -/
def parseFingerprints (atHeight : ℚ) : List XNode → Except String (List FingerprintLocation)
  | [] => .ok []
  | x :: rest =>
    let name := strAttribute x "name" ""
    ebind (floatAttribute x "x" 0) fun px =>
    ebind (floatAttribute x "y" 0) fun py =>
    ebind (floatAttribute x "dz" 0) fun hz =>
    ebind (parseFingerprints atHeight rest) fun ps =>
    .ok ({ name, x := px, y := py, z := atHeight + hz,
           heightAboveFloor := hz } :: ps)

/-- processFingerprints (lines 418-435). -/
def processFingerprints (L : IndoorListener) (xFingerprints : XNode) (floor : Floor) :
    Except String Floor :=
  let fs := L.enterFingerprintLocations floor.fingerprintLocations
  ebind (parseFingerprints floor.atHeight (namedChildren xFingerprints "location")) fun ps =>
  .ok { floor with fingerprintLocations := L.leaveFingerprintLocations (fs ++ ps) }

/-- The default-initialised Floor local of the floor loop in processMap. -/
def emptyFloor : Floor :=
  { atHeight := 0, height := 0, name := "", outline := ⟨[]⟩, walls := [],
    accessPoints := [], beacons := [], groundtruthPoints := [],
    fingerprintLocations := [], pois := [] }

/-- Runs one optional child section of processFloor. -/
def optSection (xFloor : XNode) (tag : String)
    (act : XNode → Floor → Except String Floor) (floor : Floor) :
    Except String Floor :=
  match firstNode xFloor tag with
  | some x => act x floor
  | none => .ok floor

/-- The outline block of processFloor (lines 246-254). -/
def outlineSection (L : IndoorListener) (x : XNode) (f : Floor) :
    Except String Floor :=
  ebind (processOutline L x) fun r =>
  match r with
  | some outline => .ok { f with outline := outline }
  | none => .ok f

/-- The obstacles block of processFloor (lines 257-261). -/
def obstaclesSection (L : IndoorListener) (x : XNode) (f : Floor) :
    Except String Floor :=
  ebind (processObstacles L x f) fun r => .ok r.1

/-- The pois block of processFloor (lines 264-268). -/
def poisSection (L : IndoorListener) (x : XNode) (f : Floor) :
    Except String Floor :=
  ebind (processPointOfInterests L x f.pois) fun ps =>
  .ok { f with pois := ps }

/-- processFloor (lines 233-305): none when enterFloor vetoes. -/
def processFloor (L : IndoorListener) (xFloor : XNode) :
    Except String (Option Floor) :=
  ebind (floatAttribute xFloor "atHeight" 0) fun atHeight =>
  ebind (floatAttribute xFloor "height" 0) fun height =>
  let name := strAttribute xFloor "name" ""
  let floor := { emptyFloor with atHeight, height, name }
  let (ok, floor) := L.enterFloor floor
  if ok then
    ebind (optSection xFloor "outline" (outlineSection L) floor) fun floor =>
    ebind (optSection xFloor "obstacles" (obstaclesSection L) floor) fun floor =>
    ebind (optSection xFloor "pois" (poisSection L) floor) fun floor =>
    ebind (optSection xFloor "gtpoints" (processGroundtruthPoints L) floor) fun floor =>
    ebind (optSection xFloor "accesspoints" (processAccessPoints L) floor) fun floor =>
    ebind (optSection xFloor "beacons" (processBeacons L) floor) fun floor =>
    ebind (optSection xFloor "fingerprints" (processFingerprints L) floor) fun floor =>
    .ok (some (L.leaveFloor floor))
  else .ok none

/-- The floor loop of processMap (lines 191-197). -/
def processFloors (L : IndoorListener) : List XNode → Except String (List Floor)
  | [] => .ok []
  | x :: rest =>
    ebind (processFloor L x) fun r =>
    ebind (processFloors L rest) fun fs =>
    match r with
    | some f => .ok (f :: fs)
    | none => .ok fs

/-- The correspondence-point loop of processEarthRegistration
(lines 212-226), including the per-point enter/leave hooks. -/
def parseEarthPoints (L : IndoorListener) : List XNode → Except String (List EarthPosMapPos)
  | [] => .ok []
  | x :: rest =>
    ebind (floatAttribute x "lat" 0) fun lat =>
    ebind (floatAttribute x "lon" 0) fun lon =>
    ebind (floatAttribute x "alt" 0) fun alt =>
    ebind (floatAttribute x "mx" 0) fun mx =>
    ebind (floatAttribute x "my" 0) fun my =>
    ebind (floatAttribute x "mz" 0) fun mz =>
    let pos : EarthPosMapPos := { lat, lon, alt, x := mx, y := my, z := mz }
    let pos := L.enterEarthPosMapPos pos
    let _ := L.leaveEarthPosMapPos pos
    ebind (parseEarthPoints L rest) fun ps =>
    .ok (pos :: ps)

/-- processEarthRegistration (lines 203-231). -/
def processEarthRegistration (L : IndoorListener) (xEarthReg : XNode) :
    Except String EarthRegistration :=
  let earthReg : EarthRegistration := ⟨[]⟩
  let earthReg := L.enterEarthRegistration earthReg
  ebind (match firstNode xEarthReg "correspondences" with
    | some xc => ebind (parseEarthPoints L (namedChildren xc "point")) fun ps =>
        .ok { earthReg with correspondences := earthReg.correspondences ++ ps }
    | none => .ok earthReg) fun earthReg =>
  .ok (L.leaveEarthRegistration earthReg)

/-- processMap (lines 174-201).  The model returns the final Map value;
in C++ the same value is observed via leaveMap (e.g. by MapListener). -/
def processMap (L : IndoorListener) (xMap : XNode) : Except String Map :=
  ebind (floatAttribute xMap "width" 0) fun width =>
  ebind (floatAttribute xMap "depth" 0) fun depth =>
  let map : Map := { width, depth, earthRegistration := ⟨[]⟩, floors := [] }
  let map := L.enterMap map
  ebind (match firstNode xMap "earthReg" with
    | some xer => ebind (processEarthRegistration L xer) fun er =>
        .ok { map with earthRegistration := er }
    | none => .ok map) fun map =>
  ebind (match firstNode xMap "floors" with
    | some xFloors => ebind (processFloors L (namedChildren xFloors "floor")) fun fs =>
        .ok { map with floors := map.floors ++ fs }
    | none => .ok map) fun map =>
  .ok (L.leaveMap map)

/-- readFromFile (lines 57-93) after the file has been read and
tokenised: a null listener argument is replaced by a fresh default
IndoorListener. -/
def readFromFile (xMap : XNode) (listener : Option IndoorListener) :
    Except String Map :=
  processMap (listener.getD nopListener) xMap

/-- chainFrom a segs b: the segments form one continuous polyline that
starts at a, each segment starting where the previous one ended, and
ends at b. -/
def chainFrom : Point2D → List WallSegment2D → Point2D → Bool
  | a, [], b => decide (a = b)
  | a, s :: rest, b => decide (s.start = a) && chainFrom s.endp rest b

/-- Point-sequence reversal of a segment list: the segments in reverse
order, each with its two points exchanged. -/
def revPoints (l : List WallSegment2D) : List WallSegment2D :=
  (l.map (fun s => { s with start := s.endp, endp := s.start })).reverse

/-- Equality of segment sequences up to point-sequence reversal. -/
def segEqUpToRev (a b : List WallSegment2D) : Prop :=
  a = b ∨ a = revPoints b

/-- Pairwise disjointness of the x-intervals of a segment list. -/
def noOverlapB : List WallSegment2D → Bool
  | [] => true
  | s :: rest =>
    rest.all (fun t => decide (s.endp.x ≤ t.start.x ∨ t.endp.x ≤ s.start.x)) &&
    noOverlapB rest

/-- The caller-enforced precondition of generateWallSegments: the
door/window footprints along the wall do not overlap (their x-intervals
are pairwise disjoint). -/
def SegPrecondition (w : Wall) : Prop := noOverlapB (openingSegs w) = true

instance (w : Wall) : Decidable (SegPrecondition w) :=
  inferInstanceAs (Decidable (noOverlapB (openingSegs w) = true))

/-- Swap of the two wall endpoints, doors and windows untouched
(x1,y1,x2,y2 exchanged with x2,y2,x1,y1). -/
def endpointSwap (w : Wall) : Wall :=
  { w with x1 := w.x2, y1 := w.y2, x2 := w.x1, y2 := w.y1 }

/-- Position mirror of a door: fractional position p becomes 1 - p and
the hinge side flips. -/
def mirrorDoor (d : WallDoor) : WallDoor :=
  { d with atLinePos := 1 - d.atLinePos, leftRight := !d.leftRight }

/-- Position mirror of a window: fractional position p becomes 1 - p. -/
def mirrorWindow (win : WallWindow) : WallWindow :=
  { win with atLinePos := 1 - win.atLinePos }

/-- Endpoint swap combined with mirroring every opening, so that each
opening keeps its absolute footprint on the wall line. -/
def mirrorSwapWall (w : Wall) : Wall :=
  { endpointSwap w with
    doors := w.doors.map mirrorDoor,
    windows := w.windows.map mirrorWindow }

/-- A wall with one door, used as a concrete test wall: unit wall from
(0,0) to (1,0), door at fractional position 1/5 of width 1/10 extending
forward. -/
def doorA : WallDoor :=
  { material := 1, width := 1/10, height := 2, atLinePos := 1/5,
    type := 1, leftRight := false, inOut := false }

/-- Concrete wall carrying doorA. -/
def wallA : Wall :=
  { material := 1, type := 1, x1 := 0, y1 := 0, x2 := 1, y2 := 0,
    thickness := 15/100, height := 3, doors := [doorA], windows := [],
    segments := [] }

/-- Concrete wall with no openings whose endpoints are given in
x-descending order. -/
def wallC4 : Wall :=
  { material := 0, type := 1, x1 := 5, y1 := 0, x2 := 0, y2 := 0,
    thickness := 15/100, height := 3, doors := [], windows := [],
    segments := [] }

/-- Concrete wall with no openings. -/
def wallC7 : Wall :=
  { material := 0, type := 1, x1 := 2, y1 := 3, x2 := 7, y2 := 1,
    thickness := 15/100, height := 3, doors := [], windows := [],
    segments := [] }

/-- Door element of the concrete document for the lifecycle claims. -/
def xDoorC1 : XNode := .mk "door" [("x01", "0.5"), ("width", "1")] []

/-- Wall element (unit wall along x) with one door child. -/
def xWallC1 : XNode := .mk "wall" [("x2", "1")] [xDoorC1]

/-- Obstacles element with a single wall. -/
def xObsC1 : XNode := .mk "obstacles" [] [xWallC1]

/-- A floor of height 3 with no content yet. -/
def floorC1 : Floor := { emptyFloor with height := 3 }

/-- Door element whose lr attribute is present but not a valid boolean. -/
def xDoorC2 : XNode := .mk "door" [("lr", "xyz")] []

/-- Wall element whose x1 attribute is present but not lexically a valid
number (a valid numeric prefix followed by garbage). -/
def xWallC2 : XNode := .mk "wall" [("x1", "1x")] []

/-- Wall element with height attribute present and equal to zero and no
thickness attribute. -/
def xWallC8 : XNode := .mk "wall" [("height", "0")] []

/-- The attribute-level parse result of xWallC1 on a floor of height 3. -/
def wallB : Wall :=
  { material := 0, type := 0, x1 := 0, y1 := 0, x2 := 1, y2 := 0,
    thickness := mkRat 15 100, height := 3, doors := [], windows := [],
    segments := [] }

/-- The parse result of xDoorC1. -/
def doorB : WallDoor :=
  { material := 0, width := mkRat 1 1, height := 0, atLinePos := mkRat 5 10,
    type := 0, leftRight := false, inOut := false }

/-- Wall elements distinguished by their material ordinal. -/
def xWallM1 : XNode := .mk "wall" [("material", "1")] []

/-- Wall element with material ordinal 2 (the vetoed one). -/
def xWallM2 : XNode := .mk "wall" [("material", "2")] []

/-- Wall element with material ordinal 3. -/
def xWallM3 : XNode := .mk "wall" [("material", "3")] []

/-- Observer that vetoes exactly the walls of material ordinal 2 and
otherwise behaves like the default observer. -/
def vetoMat2Listener : IndoorListener :=
  { nopListener with enterWall := fun w => (w.material != 2, w) }

/-- Success test for the error monad (models: the call did not throw). -/
def eIsOk {α : Type} : Except String α → Bool
  | .ok _ => true
  | .error _ => false

/-- The attribute-level parse result of xWallC8 on a floor of height 3. -/
def wC8 : Wall :=
  { material := 0, type := 0, x1 := 0, y1 := 0, x2 := 0, y2 := 0,
    thickness := mkRat 15 100, height := 3, doors := [], windows := [],
    segments := [] }

/-- Success of all numeric attribute reads of one door element
(lines 560-564); the lr and io bool reads do not appear: they cannot
fail. -/
def doorReadsOk (x : XNode) : Bool :=
  eIsOk (intAttribute x "type" 0) && eIsOk (intAttribute x "material" 0) &&
  eIsOk (floatAttribute x "x01" 0) && eIsOk (floatAttribute x "width" 0) &&
  eIsOk (floatAttribute x "heigth" 0)

/-- Success of all numeric attribute reads of one window element
(lines 580-584); the io bool read does not appear. -/
def windowReadsOk (x : XNode) : Bool :=
  eIsOk (intAttribute x "material" 0) && eIsOk (floatAttribute x "x01" 0) &&
  eIsOk (floatAttribute x "y" 0) && eIsOk (floatAttribute x "width" 0) &&
  eIsOk (floatAttribute x "height" 0)

/-- Success of the numeric attribute reads of one wall element proper
(lines 532-550). -/
def wallAttrsReadsOk (x : XNode) : Bool :=
  eIsOk (intAttribute x "material" 0) && eIsOk (intAttribute x "type" 0) &&
  eIsOk (floatAttribute x "x1" 0) && eIsOk (floatAttribute x "y1" 0) &&
  eIsOk (floatAttribute x "x2" 0) && eIsOk (floatAttribute x "y2" 0) &&
  eIsOk (floatAttributeNaN x "height") && eIsOk (floatAttributeNaN x "thickness")

/-- Success of every numeric read below one wall element, its door and
window children included. -/
def wallReadsOk (x : XNode) : Bool :=
  wallAttrsReadsOk x && (namedChildren x "door").all doorReadsOk &&
  (namedChildren x "window").all windowReadsOk

/-- Success of the x/y reads of one outline point element. -/
def pointReadsOk (x : XNode) : Bool :=
  eIsOk (floatAttribute x "x" 0) && eIsOk (floatAttribute x "y" 0)

/-- Success of every numeric read below one polygon element; the
outdoor bool read does not appear. -/
def polygonReadsOk (x : XNode) : Bool :=
  eIsOk (intAttribute x "method" 0) && (namedChildren x "point").all pointReadsOk

/-- Success of the numeric reads of one poi element. -/
def poiReadsOk (x : XNode) : Bool :=
  eIsOk (intAttribute x "type" 0) && eIsOk (floatAttribute x "x" 0) &&
  eIsOk (floatAttribute x "y" 0)

/-- Success of the numeric reads of one gtpoint element. -/
def gtReadsOk (x : XNode) : Bool :=
  eIsOk (intAttribute x "id" 0) && eIsOk (floatAttribute x "x" 0) &&
  eIsOk (floatAttribute x "y" 0) && eIsOk (floatAttribute x "z" 0)

/-- Success of the numeric reads of one accesspoint element. -/
def apReadsOk (x : XNode) : Bool :=
  eIsOk (floatAttribute x "x" 0) && eIsOk (floatAttribute x "y" 0) &&
  eIsOk (floatAttribute x "z" 0) && eIsOk (floatAttribute x "mdl_txp" 0) &&
  eIsOk (floatAttribute x "mdl_exp" 0) && eIsOk (floatAttribute x "mdl_waf" 0)

/-- Success of the numeric reads of one beacon element. -/
def beaconReadsOk (x : XNode) : Bool :=
  eIsOk (floatAttribute x "x" 0) && eIsOk (floatAttribute x "y" 0) &&
  eIsOk (floatAttribute x "z" 0) && eIsOk (floatAttribute x "mdl_txp" 0) &&
  eIsOk (floatAttribute x "mdl_exp" 0) && eIsOk (floatAttribute x "mdl_waf" 0)

/-- Success of the numeric reads of one fingerprint location element. -/
def fpReadsOk (x : XNode) : Bool :=
  eIsOk (floatAttribute x "x" 0) && eIsOk (floatAttribute x "y" 0) &&
  eIsOk (floatAttribute x "dz" 0)

/-- Success of the numeric reads of one earth correspondence point. -/
def earthPointReadsOk (x : XNode) : Bool :=
  eIsOk (floatAttribute x "lat" 0) && eIsOk (floatAttribute x "lon" 0) &&
  eIsOk (floatAttribute x "alt" 0) && eIsOk (floatAttribute x "mx" 0) &&
  eIsOk (floatAttribute x "my" 0) && eIsOk (floatAttribute x "mz" 0)

/-- All-reads-ok over one optional child section of a floor. -/
def sectionAll (xF : XNode) (tag : String) (p : XNode → Bool) : Bool :=
  match firstNode xF tag with
  | some x => p x
  | none => true

/-- Success of every numeric read below one floor element, all seven
sections included. -/
def floorReadsOk (xF : XNode) : Bool :=
  eIsOk (floatAttribute xF "atHeight" 0) && eIsOk (floatAttribute xF "height" 0) &&
  sectionAll xF "outline" (fun x => (namedChildren x "polygon").all polygonReadsOk) &&
  sectionAll xF "obstacles" (fun x => (namedChildren x "wall").all wallReadsOk) &&
  sectionAll xF "pois" (fun x => (namedChildren x "poi").all poiReadsOk) &&
  sectionAll xF "gtpoints" (fun x => (namedChildren x "gtpoint").all gtReadsOk) &&
  sectionAll xF "accesspoints" (fun x => (namedChildren x "accesspoint").all apReadsOk) &&
  sectionAll xF "beacons" (fun x => (namedChildren x "beacon").all beaconReadsOk) &&
  sectionAll xF "fingerprints" (fun x => (namedChildren x "location").all fpReadsOk)

/-- Success of the numeric reads below the correspondences child of an
earthReg element. -/
def corrReadsOk (xer : XNode) : Bool :=
  match firstNode xer "correspondences" with
  | some xc => (namedChildren xc "point").all earthPointReadsOk
  | none => true

/-- Success of the numeric reads of the optional earthReg block. -/
def earthReadsOk (xMap : XNode) : Bool :=
  match firstNode xMap "earthReg" with
  | some xer => corrReadsOk xer
  | none => true

/-- Success of the numeric reads of the optional floors block. -/
def floorsReadsOk (xMap : XNode) : Bool :=
  match firstNode xMap "floors" with
  | some xFs => (namedChildren xFs "floor").all floorReadsOk
  | none => true

/-- Success of every numeric attribute read the traversal performs on a
whole document.  No boolAttribute or strAttribute read occurs anywhere
in this predicate tree: those reads cannot fail. -/
def mapReadsOk (xMap : XNode) : Bool :=
  eIsOk (floatAttribute xMap "width" 0) && eIsOk (floatAttribute xMap "depth" 0) &&
  earthReadsOk xMap && floorsReadsOk xMap

/-- One optional floor section: tag, parser action, and the read
predicate of the section element. -/
def SecTriple : Type :=
  String × (XNode → Floor → Except String Floor) × (XNode → Bool)

/-- The chain of optional sections that processFloor runs in order. -/
def sectionChain (xF : XNode) : List SecTriple → Floor → Except String (Option Floor)
  | [], g => .ok (some g)
  | t :: rest, g => ebind (optSection xF t.1 t.2.1 g) fun g2 => sectionChain xF rest g2

/-- Document whose only flaw is one unparsable numeric attribute on a
door nested map/floors/floor/obstacles/wall/door deep. -/
def xMapBad : XNode :=
  .mk "map" [("width", "5")]
    [.mk "floors" []
      [.mk "floor" [("height", "3")]
        [.mk "obstacles" []
          [.mk "wall" [("x1", "0")]
            [.mk "door" [("width", "oops")] []]]]]]

/-- C7: for every wall whose doors sequence and windows sequence are both
empty, segmentation yields exactly one segment, of Wall type, equal to
the wall's endpoints (start (x1,y1), end (x2,y2)). -/
theorem C7_no_openings_single_segment (w : Wall)
    (hd : w.doors = []) (hw : w.windows = []) (hs : w.segments = []) :
    (generateWallSegments w).segments = [⟨-1, .Wall, w.start, w.endp⟩] := by
  simp [generateWallSegments, hd, hw, hs]

/-- Witness for C7 on the concrete wall wallC7. -/
theorem C7_witness :
    (generateWallSegments wallC7).segments = [⟨-1, .Wall, wallC7.start, wallC7.endp⟩] :=
  C7_no_openings_single_segment wallC7 rfl rfl rfl

/-- C9: parsing any document with no observer (null listener) and
parsing it with the default all-no-op observer yield identical models;
readFromFile substitutes exactly that observer for a null pointer. -/
theorem C9_null_listener_eq_default (xMap : XNode) :
    readFromFile xMap none = readFromFile xMap (some nopListener) := rfl

/-- C2 counterexample: an lr attribute whose value "xyz" is not a valid
boolean is silently read as false (the whole door parse succeeds), and a
present x1 value "1x" that is not lexically a valid number is read as 1
by the prefix semantics of std::stof; neither read is a parse failure. -/
theorem C2_counterexample :
    processDoorAttrs xDoorC2 =
      .ok { material := 0, width := 0, height := 0, atLinePos := 0,
            type := 0, leftRight := false, inOut := false } ∧
    floatAttribute xWallC2 "x1" 0 = .ok 1 := by
  constructor <;> decide

/-- eIsOk of a bind whose continuation has value-independent success. -/
theorem eIsOk_ebind_const {α β : Type} (x : Except String α)
    (f : α → Except String β) (b : Bool) (hf : ∀ a, eIsOk (f a) = b) :
    eIsOk (ebind x f) = (eIsOk x && b) := by
  cases x with
  | error e => rfl
  | ok a => exact hf a

/-- A bind whose continuation always succeeds preserves success. -/
theorem eIsOk_ebind_pure {α β : Type} (x : Except String α) (g : α → β) :
    eIsOk (ebind x fun a => Except.ok (g a)) = eIsOk x := by
  cases x <;> rfl

/-- Success of the wall attribute parse equals its eight numeric reads'
success, for every floor height. -/
theorem processWallAttrs_isOk (fh : ℚ) (x : XNode) :
    eIsOk (processWallAttrs fh x) = wallAttrsReadsOk x := by
  unfold processWallAttrs wallAttrsReadsOk
  cases intAttribute x "material" 0 <;>
  cases intAttribute x "type" 0 <;>
  cases floatAttribute x "x1" 0 <;>
  cases floatAttribute x "y1" 0 <;>
  cases floatAttribute x "x2" 0 <;>
  cases floatAttribute x "y2" 0 <;>
  cases floatAttributeNaN x "height" <;>
  cases floatAttributeNaN x "thickness" <;>
  rfl

/-- Success of a door element parse equals its five numeric reads'
success; the lr and io bool reads cannot fail and do not appear. -/
theorem processDoorAttrs_isOk (x : XNode) :
    eIsOk (processDoorAttrs x) = doorReadsOk x := by
  unfold processDoorAttrs doorReadsOk
  cases intAttribute x "type" 0 <;>
  cases intAttribute x "material" 0 <;>
  cases floatAttribute x "x01" 0 <;>
  cases floatAttribute x "width" 0 <;>
  cases floatAttribute x "heigth" 0 <;>
  rfl

/-- Success of a window element parse equals its five numeric reads'
success; the io bool read cannot fail and does not appear. -/
theorem processWindowAttrs_isOk (x : XNode) :
    eIsOk (processWindowAttrs x) = windowReadsOk x := by
  unfold processWindowAttrs windowReadsOk
  cases intAttribute x "material" 0 <;>
  cases floatAttribute x "x01" 0 <;>
  cases floatAttribute x "y" 0 <;>
  cases floatAttribute x "width" 0 <;>
  cases floatAttribute x "height" 0 <;>
  rfl

/-- Success of the door loop, for every listener: the attribute reads
run before the veto gate, so vetoes do not mask read failures. -/
theorem processDoors_isOk (L : IndoorListener) :
    ∀ l : List XNode, eIsOk (processDoors L l) = l.all doorReadsOk
  | [] => rfl
  | x :: rest => by
    rw [List.all_cons, ← processDoorAttrs_isOk x, ← processDoors_isOk L rest]
    cases h : processDoorAttrs x with
    | error e => simp [processDoors, ebind, h, eIsOk]
    | ok d =>
      rcases hL : L.enterWallDoor d with ⟨ok, d2⟩
      cases ok with
      | false => simp [processDoors, ebind, h, hL, eIsOk]
      | true =>
        cases h2 : processDoors L rest with
        | error e => simp [processDoors, ebind, h, hL, h2, eIsOk]
        | ok ds => simp [processDoors, ebind, h, hL, h2, eIsOk]

/-- Success of the window loop, for every listener. -/
theorem processWindows_isOk (L : IndoorListener) :
    ∀ l : List XNode, eIsOk (processWindows L l) = l.all windowReadsOk
  | [] => rfl
  | x :: rest => by
    rw [List.all_cons, ← processWindowAttrs_isOk x, ← processWindows_isOk L rest]
    cases h : processWindowAttrs x with
    | error e => simp [processWindows, ebind, h, eIsOk]
    | ok d =>
      rcases hL : L.enterWallWindow d with ⟨ok, d2⟩
      cases ok with
      | false => simp [processWindows, ebind, h, hL, eIsOk]
      | true =>
        cases h2 : processWindows L rest with
        | error e => simp [processWindows, ebind, h, hL, h2, eIsOk]
        | ok ds => simp [processWindows, ebind, h, hL, h2, eIsOk]

/-- Success of one wall iteration under the default listener equals the
success of every numeric read below the wall element. -/
theorem processWall_isOk (f : Floor) (x : XNode) :
    eIsOk (processWall nopListener f x) = wallReadsOk x := by
  unfold processWall wallReadsOk
  cases h : processWallAttrs f.height x with
  | error e =>
    have ha := processWallAttrs_isOk f.height x
    rw [h] at ha
    simp [ebind, eIsOk, ← ha]
  | ok w =>
    have ha := processWallAttrs_isOk f.height x
    rw [h] at ha
    have hd := processDoors_isOk nopListener (namedChildren x "door")
    have hw := processWindows_isOk nopListener (namedChildren x "window")
    cases h2 : processDoors nopListener (namedChildren x "door") with
    | error e =>
      rw [h2] at hd
      simp [ebind, eIsOk, nopListener, ← ha, ← hd]
    | ok ds =>
      rw [h2] at hd
      cases h3 : processWindows nopListener (namedChildren x "window") with
      | error e =>
        rw [h3] at hw
        simp [ebind, eIsOk, nopListener, h2, ← ha, ← hd, ← hw]
      | ok ws =>
        rw [h3] at hw
        simp [ebind, eIsOk, nopListener, h2, h3, ← ha, ← hd, ← hw]

/-- Success of the wall loop under the default listener. -/
theorem processWallList_isOk (f : Floor) :
    ∀ l : List XNode, eIsOk (processWallList nopListener f l) = l.all wallReadsOk
  | [] => rfl
  | x :: rest => by
    rw [List.all_cons, ← processWall_isOk f x, ← processWallList_isOk f rest]
    show eIsOk (ebind (processWall nopListener f x) fun r =>
        ebind (processWallList nopListener f rest) fun rs =>
        match r with
        | some pw => Except.ok (pw :: rs)
        | none => Except.ok rs)
      = (eIsOk (processWall nopListener f x) &&
          eIsOk (processWallList nopListener f rest))
    cases processWall nopListener f x with
    | error e => rfl
    | ok r =>
      cases processWallList nopListener f rest with
      | error e => rfl
      | ok rs => cases r <;> rfl

/-- Success of processObstacles under the default listener. -/
theorem processObstacles_isOk (x : XNode) (f : Floor) :
    eIsOk (processObstacles nopListener x f)
      = (namedChildren x "wall").all wallReadsOk := by
  have h : processObstacles nopListener x f
      = ebind (processWallList nopListener f (namedChildren x "wall"))
          (fun rs => Except.ok ({ f with walls := f.walls ++ rs.map Prod.fst },
            rs.map Prod.snd)) := rfl
  rw [h, eIsOk_ebind_pure, processWallList_isOk]

/-- Success of the outline point loop. -/
theorem processPolygonPoints_isOk :
    ∀ l : List XNode, eIsOk (processPolygonPoints l) = l.all pointReadsOk
  | [] => rfl
  | x :: rest => by
    rw [List.all_cons, ← processPolygonPoints_isOk rest]
    show eIsOk (ebind (floatAttribute x "x" 0) fun px =>
        ebind (floatAttribute x "y" 0) fun py =>
        ebind (processPolygonPoints rest) fun ps =>
        Except.ok (⟨px, py⟩ :: ps))
      = ((eIsOk (floatAttribute x "x" 0) && eIsOk (floatAttribute x "y" 0)) &&
          eIsOk (processPolygonPoints rest))
    cases floatAttribute x "x" 0 <;>
    cases floatAttribute x "y" 0 <;>
    cases processPolygonPoints rest <;>
    rfl

/-- Success of the polygon loop; the outdoor bool read cannot fail and
does not appear. -/
theorem processPolygons_isOk :
    ∀ l : List XNode, eIsOk (processPolygons l) = l.all polygonReadsOk
  | [] => rfl
  | x :: rest => by
    rw [List.all_cons, ← processPolygons_isOk rest]
    show eIsOk (ebind (intAttribute x "method" 0) fun method =>
        ebind (processPolygonPoints (namedChildren x "point")) fun points =>
        ebind (processPolygons rest) fun ps =>
        Except.ok (⟨strAttribute x "name" "", method,
          boolAttribute x "outdoor" false, points⟩ :: ps))
      = ((eIsOk (intAttribute x "method" 0) &&
          (namedChildren x "point").all pointReadsOk) &&
          eIsOk (processPolygons rest))
    rw [← processPolygonPoints_isOk (namedChildren x "point")]
    cases intAttribute x "method" 0 <;>
    cases processPolygonPoints (namedChildren x "point") <;>
    cases processPolygons rest <;>
    rfl

/-- Success of processOutline under the default listener. -/
theorem processOutline_isOk (xO : XNode) :
    eIsOk (processOutline nopListener xO)
      = (namedChildren xO "polygon").all polygonReadsOk := by
  have h : processOutline nopListener xO
      = ebind (processPolygons (namedChildren xO "polygon")) (fun ps =>
          Except.ok (some { polygons := [] ++ ps })) := rfl
  rw [h, eIsOk_ebind_pure, processPolygons_isOk]

/-- Success of the poi loop. -/
theorem parsePois_isOk :
    ∀ l : List XNode, eIsOk (parsePois l) = l.all poiReadsOk
  | [] => rfl
  | x :: rest => by
    rw [List.all_cons, ← parsePois_isOk rest]
    show eIsOk (ebind (intAttribute x "type" 0) fun type =>
        ebind (floatAttribute x "x" 0) fun px =>
        ebind (floatAttribute x "y" 0) fun py =>
        ebind (parsePois rest) fun ps =>
        Except.ok (⟨strAttribute x "name" "", type, px, py⟩ :: ps))
      = ((eIsOk (intAttribute x "type" 0) && eIsOk (floatAttribute x "x" 0) &&
          eIsOk (floatAttribute x "y" 0)) && eIsOk (parsePois rest))
    cases intAttribute x "type" 0 <;>
    cases floatAttribute x "x" 0 <;>
    cases floatAttribute x "y" 0 <;>
    cases parsePois rest <;>
    rfl

/-- Success of processPointOfInterests under the default listener. -/
theorem processPointOfInterests_isOk (x : XNode) (pois : List PointOfInterest) :
    eIsOk (processPointOfInterests nopListener x pois)
      = (namedChildren x "poi").all poiReadsOk := by
  have h : processPointOfInterests nopListener x pois
      = ebind (parsePois (namedChildren x "poi")) (fun ps =>
          Except.ok (pois ++ ps)) := rfl
  rw [h, eIsOk_ebind_pure, parsePois_isOk]

/-- Success of the gtpoint loop, for every floor height. -/
theorem parseGtPoints_isOk (atH : ℚ) :
    ∀ l : List XNode, eIsOk (parseGtPoints atH l) = l.all gtReadsOk
  | [] => rfl
  | x :: rest => by
    rw [List.all_cons, ← parseGtPoints_isOk atH rest]
    show eIsOk (ebind (intAttribute x "id" 0) fun pid =>
        ebind (floatAttribute x "x" 0) fun px =>
        ebind (floatAttribute x "y" 0) fun py =>
        ebind (floatAttribute x "z" 0) fun hz =>
        ebind (parseGtPoints atH rest) fun ps =>
        Except.ok (⟨pid, px, py, atH + hz, hz⟩ :: ps))
      = ((eIsOk (intAttribute x "id" 0) && eIsOk (floatAttribute x "x" 0) &&
          eIsOk (floatAttribute x "y" 0) && eIsOk (floatAttribute x "z" 0)) &&
          eIsOk (parseGtPoints atH rest))
    cases intAttribute x "id" 0 <;>
    cases floatAttribute x "x" 0 <;>
    cases floatAttribute x "y" 0 <;>
    cases floatAttribute x "z" 0 <;>
    cases parseGtPoints atH rest <;>
    rfl

/-- Success of processGroundtruthPoints under the default listener. -/
theorem processGroundtruthPoints_isOk (x : XNode) (f : Floor) :
    eIsOk (processGroundtruthPoints nopListener x f)
      = (namedChildren x "gtpoint").all gtReadsOk := by
  have h : processGroundtruthPoints nopListener x f
      = ebind (parseGtPoints f.atHeight (namedChildren x "gtpoint")) (fun ps =>
          Except.ok { f with groundtruthPoints := f.groundtruthPoints ++ ps }) := rfl
  rw [h, eIsOk_ebind_pure, parseGtPoints_isOk]

/-- Success of the accesspoint loop, for every floor height. -/
theorem parseAccessPoints_isOk (atH : ℚ) :
    ∀ l : List XNode, eIsOk (parseAccessPoints atH l) = l.all apReadsOk
  | [] => rfl
  | x :: rest => by
    rw [List.all_cons, ← parseAccessPoints_isOk atH rest]
    show eIsOk (ebind (floatAttribute x "x" 0) fun px =>
        ebind (floatAttribute x "y" 0) fun py =>
        ebind (floatAttribute x "z" 0) fun hz =>
        ebind (floatAttribute x "mdl_txp" 0) fun txp =>
        ebind (floatAttribute x "mdl_exp" 0) fun exp =>
        ebind (floatAttribute x "mdl_waf" 0) fun waf =>
        ebind (parseAccessPoints atH rest) fun ps =>
        Except.ok (⟨strAttribute x "name" "", strAttribute x "mac" "",
          px, py, atH + hz, hz, txp, exp, waf⟩ :: ps))
      = ((eIsOk (floatAttribute x "x" 0) && eIsOk (floatAttribute x "y" 0) &&
          eIsOk (floatAttribute x "z" 0) && eIsOk (floatAttribute x "mdl_txp" 0) &&
          eIsOk (floatAttribute x "mdl_exp" 0) && eIsOk (floatAttribute x "mdl_waf" 0)) &&
          eIsOk (parseAccessPoints atH rest))
    cases floatAttribute x "x" 0 <;>
    cases floatAttribute x "y" 0 <;>
    cases floatAttribute x "z" 0 <;>
    cases floatAttribute x "mdl_txp" 0 <;>
    cases floatAttribute x "mdl_exp" 0 <;>
    cases floatAttribute x "mdl_waf" 0 <;>
    cases parseAccessPoints atH rest <;>
    rfl

/-- Success of processAccessPoints under the default listener. -/
theorem processAccessPoints_isOk (x : XNode) (f : Floor) :
    eIsOk (processAccessPoints nopListener x f)
      = (namedChildren x "accesspoint").all apReadsOk := by
  have h : processAccessPoints nopListener x f
      = ebind (parseAccessPoints f.atHeight (namedChildren x "accesspoint")) (fun ps =>
          Except.ok { f with accessPoints := f.accessPoints ++ ps }) := rfl
  rw [h, eIsOk_ebind_pure, parseAccessPoints_isOk]

/-- Success of the beacon loop, for every floor height. -/
theorem parseBeacons_isOk (atH : ℚ) :
    ∀ l : List XNode, eIsOk (parseBeacons atH l) = l.all beaconReadsOk
  | [] => rfl
  | x :: rest => by
    rw [List.all_cons, ← parseBeacons_isOk atH rest]
    show eIsOk (ebind (floatAttribute x "x" 0) fun px =>
        ebind (floatAttribute x "y" 0) fun py =>
        ebind (floatAttribute x "z" 0) fun hz =>
        ebind (floatAttribute x "mdl_txp" 0) fun txp =>
        ebind (floatAttribute x "mdl_exp" 0) fun exp =>
        ebind (floatAttribute x "mdl_waf" 0) fun waf =>
        ebind (parseBeacons atH rest) fun ps =>
        Except.ok (⟨strAttribute x "name" "", strAttribute x "mac" "",
          strAttribute x "uuid" "", strAttribute x "major" "",
          strAttribute x "minor" "",
          px, py, atH + hz, hz, txp, exp, waf⟩ :: ps))
      = ((eIsOk (floatAttribute x "x" 0) && eIsOk (floatAttribute x "y" 0) &&
          eIsOk (floatAttribute x "z" 0) && eIsOk (floatAttribute x "mdl_txp" 0) &&
          eIsOk (floatAttribute x "mdl_exp" 0) && eIsOk (floatAttribute x "mdl_waf" 0)) &&
          eIsOk (parseBeacons atH rest))
    cases floatAttribute x "x" 0 <;>
    cases floatAttribute x "y" 0 <;>
    cases floatAttribute x "z" 0 <;>
    cases floatAttribute x "mdl_txp" 0 <;>
    cases floatAttribute x "mdl_exp" 0 <;>
    cases floatAttribute x "mdl_waf" 0 <;>
    cases parseBeacons atH rest <;>
    rfl

/-- Success of processBeacons under the default listener. -/
theorem processBeacons_isOk (x : XNode) (f : Floor) :
    eIsOk (processBeacons nopListener x f)
      = (namedChildren x "beacon").all beaconReadsOk := by
  have h : processBeacons nopListener x f
      = ebind (parseBeacons f.atHeight (namedChildren x "beacon")) (fun ps =>
          Except.ok { f with beacons := f.beacons ++ ps }) := rfl
  rw [h, eIsOk_ebind_pure, parseBeacons_isOk]

/-- Success of the fingerprint location loop, for every floor height. -/
theorem parseFingerprints_isOk (atH : ℚ) :
    ∀ l : List XNode, eIsOk (parseFingerprints atH l) = l.all fpReadsOk
  | [] => rfl
  | x :: rest => by
    rw [List.all_cons, ← parseFingerprints_isOk atH rest]
    show eIsOk (ebind (floatAttribute x "x" 0) fun px =>
        ebind (floatAttribute x "y" 0) fun py =>
        ebind (floatAttribute x "dz" 0) fun hz =>
        ebind (parseFingerprints atH rest) fun ps =>
        Except.ok (⟨strAttribute x "name" "", px, py, atH + hz, hz⟩ :: ps))
      = ((eIsOk (floatAttribute x "x" 0) && eIsOk (floatAttribute x "y" 0) &&
          eIsOk (floatAttribute x "dz" 0)) && eIsOk (parseFingerprints atH rest))
    cases floatAttribute x "x" 0 <;>
    cases floatAttribute x "y" 0 <;>
    cases floatAttribute x "dz" 0 <;>
    cases parseFingerprints atH rest <;>
    rfl

/-- Success of processFingerprints under the default listener. -/
theorem processFingerprints_isOk (x : XNode) (f : Floor) :
    eIsOk (processFingerprints nopListener x f)
      = (namedChildren x "location").all fpReadsOk := by
  have h : processFingerprints nopListener x f
      = ebind (parseFingerprints f.atHeight (namedChildren x "location")) (fun ps =>
          Except.ok { f with fingerprintLocations := f.fingerprintLocations ++ ps }) := rfl
  rw [h, eIsOk_ebind_pure, parseFingerprints_isOk]

/-- Success of the earth correspondence loop, for every listener. -/
theorem parseEarthPoints_isOk (L : IndoorListener) :
    ∀ l : List XNode, eIsOk (parseEarthPoints L l) = l.all earthPointReadsOk
  | [] => rfl
  | x :: rest => by
    rw [List.all_cons, ← parseEarthPoints_isOk L rest]
    show eIsOk (ebind (floatAttribute x "lat" 0) fun lat =>
        ebind (floatAttribute x "lon" 0) fun lon =>
        ebind (floatAttribute x "alt" 0) fun alt =>
        ebind (floatAttribute x "mx" 0) fun mx =>
        ebind (floatAttribute x "my" 0) fun my =>
        ebind (floatAttribute x "mz" 0) fun mz =>
        ebind (parseEarthPoints L rest) fun ps =>
        Except.ok (L.enterEarthPosMapPos ⟨lat, lon, alt, mx, my, mz⟩ :: ps))
      = ((eIsOk (floatAttribute x "lat" 0) && eIsOk (floatAttribute x "lon" 0) &&
          eIsOk (floatAttribute x "alt" 0) && eIsOk (floatAttribute x "mx" 0) &&
          eIsOk (floatAttribute x "my" 0) && eIsOk (floatAttribute x "mz" 0)) &&
          eIsOk (parseEarthPoints L rest))
    cases floatAttribute x "lat" 0 <;>
    cases floatAttribute x "lon" 0 <;>
    cases floatAttribute x "alt" 0 <;>
    cases floatAttribute x "mx" 0 <;>
    cases floatAttribute x "my" 0 <;>
    cases floatAttribute x "mz" 0 <;>
    cases parseEarthPoints L rest <;>
    rfl

/-- Success of processEarthRegistration under the default listener. -/
theorem processEarthRegistration_isOk (x : XNode) :
    eIsOk (processEarthRegistration nopListener x) = corrReadsOk x := by
  unfold processEarthRegistration corrReadsOk
  cases firstNode x "correspondences" with
  | none => rfl
  | some xc =>
    show eIsOk (ebind (ebind (parseEarthPoints nopListener (namedChildren xc "point"))
        fun ps => Except.ok ({ correspondences := [] ++ ps } : EarthRegistration))
        fun er => Except.ok er)
      = (namedChildren xc "point").all earthPointReadsOk
    rw [← parseEarthPoints_isOk nopListener (namedChildren xc "point")]
    cases parseEarthPoints nopListener (namedChildren xc "point") <;> rfl

/-- Success of the outline section of a floor, for every floor value. -/
theorem outlineSection_isOk (x : XNode) (g : Floor) :
    eIsOk (outlineSection nopListener x g)
      = (namedChildren x "polygon").all polygonReadsOk := by
  rw [← processOutline_isOk x]
  unfold outlineSection
  cases processOutline nopListener x with
  | error e => rfl
  | ok r => cases r <;> rfl

/-- Success of the obstacles section of a floor, for every floor value. -/
theorem obstaclesSection_isOk (x : XNode) (g : Floor) :
    eIsOk (obstaclesSection nopListener x g)
      = (namedChildren x "wall").all wallReadsOk := by
  rw [← processObstacles_isOk x g]
  unfold obstaclesSection
  cases processObstacles nopListener x g <;> rfl

/-- Success of the pois section of a floor, for every floor value. -/
theorem poisSection_isOk (x : XNode) (g : Floor) :
    eIsOk (poisSection nopListener x g)
      = (namedChildren x "poi").all poiReadsOk := by
  rw [← processPointOfInterests_isOk x g.pois]
  unfold poisSection
  cases processPointOfInterests nopListener x g.pois <;> rfl

/-- Success of one optional floor section whose action's success depends
only on the section element. -/
theorem optSection_isOk (xF : XNode) (tag : String)
    (act : XNode → Floor → Except String Floor) (p : XNode → Bool)
    (hact : ∀ x g, eIsOk (act x g) = p x) (f : Floor) :
    eIsOk (optSection xF tag act f) = sectionAll xF tag p := by
  unfold optSection sectionAll
  cases firstNode xF tag
  · rfl
  · exact hact _ _

/-- Success of a chain of optional floor sections, each of whose
success depends only on its section element, for every starting floor
value. -/
theorem sectionChain_isOk (xF : XNode) :
    ∀ l : List SecTriple,
      (∀ t ∈ l, ∀ x g, eIsOk (t.2.1 x g) = t.2.2 x) →
      ∀ g : Floor,
        eIsOk (sectionChain xF l g) = l.all fun t => sectionAll xF t.1 t.2.2
  | [], _, g => rfl
  | t :: rest, h, g => by
    rw [List.all_cons]
    unfold sectionChain
    rw [eIsOk_ebind_const _ _ _ (sectionChain_isOk xF rest
        (fun t2 ht2 => h t2 (List.mem_cons_of_mem _ ht2))),
      optSection_isOk xF t.1 t.2.1 t.2.2 (h t (List.mem_cons_self _ _)) g]

/-- Success of processFloor under the default listener equals the
success of every numeric read below the floor element. -/
theorem processFloor_isOk (xF : XNode) :
    eIsOk (processFloor nopListener xF) = floorReadsOk xF := by
  unfold processFloor floorReadsOk
  cases floatAttribute xF "atHeight" 0 with
  | error e => rfl
  | ok a1 =>
    cases floatAttribute xF "height" 0 with
    | error e => rfl
    | ok a2 =>
      exact (sectionChain_isOk xF
        [("outline", outlineSection nopListener,
           fun x => (namedChildren x "polygon").all polygonReadsOk),
         ("obstacles", obstaclesSection nopListener,
           fun x => (namedChildren x "wall").all wallReadsOk),
         ("pois", poisSection nopListener,
           fun x => (namedChildren x "poi").all poiReadsOk),
         ("gtpoints", processGroundtruthPoints nopListener,
           fun x => (namedChildren x "gtpoint").all gtReadsOk),
         ("accesspoints", processAccessPoints nopListener,
           fun x => (namedChildren x "accesspoint").all apReadsOk),
         ("beacons", processBeacons nopListener,
           fun x => (namedChildren x "beacon").all beaconReadsOk),
         ("fingerprints", processFingerprints nopListener,
           fun x => (namedChildren x "location").all fpReadsOk)]
        (by
          intro t ht x g
          simp only [List.mem_cons, List.not_mem_nil, or_false] at ht
          rcases ht with rfl | rfl | rfl | rfl | rfl | rfl | rfl
          · exact outlineSection_isOk x g
          · exact obstaclesSection_isOk x g
          · exact poisSection_isOk x g
          · exact processGroundtruthPoints_isOk x g
          · exact processAccessPoints_isOk x g
          · exact processBeacons_isOk x g
          · exact processFingerprints_isOk x g)
        { emptyFloor with
          atHeight := a1, height := a2,
          name := strAttribute xF "name" "" }).trans
        (by simp only [List.all_cons, List.all_nil, Bool.and_true, eIsOk,
          Bool.true_and, Bool.and_assoc])

/-- Success of the floor loop under the default listener. -/
theorem processFloors_isOk :
    ∀ l : List XNode, eIsOk (processFloors nopListener l) = l.all floorReadsOk
  | [] => rfl
  | x :: rest => by
    rw [List.all_cons, ← processFloor_isOk x, ← processFloors_isOk rest]
    show eIsOk (ebind (processFloor nopListener x) fun r =>
        ebind (processFloors nopListener rest) fun fs =>
        match r with
        | some f => Except.ok (f :: fs)
        | none => Except.ok fs)
      = (eIsOk (processFloor nopListener x) && eIsOk (processFloors nopListener rest))
    cases processFloor nopListener x with
    | error e => rfl
    | ok r =>
      cases processFloors nopListener rest with
      | error e => rfl
      | ok fs => cases r <;> rfl

/-- Success of the optional earthReg block of processMap, for every
success continuation. -/
theorem earthBlock_isOk (xMap : XNode) {β : Type}
    (g : EarthRegistration → β) (y : β) :
    eIsOk (match firstNode xMap "earthReg" with
      | some xer => ebind (processEarthRegistration nopListener xer) fun er =>
          Except.ok (g er)
      | none => Except.ok y)
    = earthReadsOk xMap := by
  unfold earthReadsOk
  cases firstNode xMap "earthReg" with
  | none => rfl
  | some xer =>
    show eIsOk (ebind (processEarthRegistration nopListener xer) fun er =>
        Except.ok (g er)) = corrReadsOk xer
    rw [eIsOk_ebind_pure, processEarthRegistration_isOk]

/-- Success of the optional floors block of processMap, for every map
value. -/
theorem floorsBlock_isOk (xMap : XNode) (m : Map) :
    eIsOk (ebind (match firstNode xMap "floors" with
      | some xFs => ebind (processFloors nopListener (namedChildren xFs "floor")) fun fs =>
          Except.ok { m with floors := m.floors ++ fs }
      | none => Except.ok m) fun m2 => Except.ok m2)
    = floorsReadsOk xMap := by
  unfold floorsReadsOk
  cases firstNode xMap "floors" with
  | none => rfl
  | some xFs =>
    show eIsOk (ebind (ebind (processFloors nopListener (namedChildren xFs "floor"))
        fun fs => Except.ok { m with floors := m.floors ++ fs })
        fun m2 => Except.ok m2)
      = (namedChildren xFs "floor").all floorReadsOk
    rw [← processFloors_isOk (namedChildren xFs "floor")]
    cases processFloors nopListener (namedChildren xFs "floor") <;> rfl

/-- Success of processMap under the default listener equals the success
of every numeric attribute read the traversal performs on the
document. -/
theorem processMap_isOk (xMap : XNode) :
    eIsOk (processMap nopListener xMap) = mapReadsOk xMap := by
  unfold processMap mapReadsOk
  cases floatAttribute xMap "width" 0 with
  | error e => rfl
  | ok a1 =>
    cases floatAttribute xMap "depth" 0 with
    | error e => rfl
    | ok a2 =>
      show eIsOk (ebind (match firstNode xMap "earthReg" with
          | some xer => ebind (processEarthRegistration nopListener xer) fun er =>
              Except.ok { width := a1, depth := a2, earthRegistration := er, floors := [] }
          | none => Except.ok ({ width := a1, depth := a2, earthRegistration := ⟨[]⟩, floors := [] } : Map)) fun m =>
          ebind (match firstNode xMap "floors" with
            | some xFs => ebind (processFloors nopListener (namedChildren xFs "floor")) fun fs =>
                Except.ok { m with floors := m.floors ++ fs }
            | none => Except.ok m) fun m2 => Except.ok m2)
        = (true && (true && (earthReadsOk xMap && floorsReadsOk xMap)))
      rw [eIsOk_ebind_const _ _ (floorsReadsOk xMap) (floorsBlock_isOk xMap),
        earthBlock_isOk xMap]
      rfl

/-- C2 amended: for every element and attribute name, a present float
or int attribute value is read exactly by stof/stoi (never replaced by
the default or an arbitrary value), and when the value has no valid
numeric prefix that read is a hard parse failure; bool attribute reads
never fail: a present value is read totally by the istream boolalpha
semantics (false on mismatch).  The success of the whole parse call
under the default listener equals the conjunction of the successes of
every numeric attribute read the traversal performs (mapReadsOk, in
which no bool or string read occurs), so any numeric read failure
anywhere in the document propagates to the caller of readFromFile and
bool attribute values never cause or mask a failure. -/
theorem C2_amended :
    (∀ (n : XNode) (a : String) (d : ℚ) (v : String),
        tryGetAttribute n a = some v →
        floatAttribute n a d = stofQ v ∧
        (eIsOk (stofQ v) = false → eIsOk (floatAttribute n a d) = false)) ∧
    (∀ (n : XNode) (a : String) (d : Int) (v : String),
        tryGetAttribute n a = some v →
        intAttribute n a d = stoiQ v ∧
        (eIsOk (stoiQ v) = false → eIsOk (intAttribute n a d) = false)) ∧
    (∀ (n : XNode) (a : String) (d : Bool) (v : String),
        tryGetAttribute n a = some v → boolAttribute n a d = cppReadBool v) ∧
    (∀ xMap : XNode, eIsOk (readFromFile xMap none) = mapReadsOk xMap) := by
  refine ⟨?_, ?_, ?_, ?_⟩
  · intro n a d v h
    have he : floatAttribute n a d = stofQ v := by
      unfold floatAttribute
      rw [h]
    exact ⟨he, fun hb => by rw [he]; exact hb⟩
  · intro n a d v h
    have he : intAttribute n a d = stoiQ v := by
      unfold intAttribute
      rw [h]
    exact ⟨he, fun hb => by rw [he]; exact hb⟩
  · intro n a d v h
    unfold boolAttribute
    rw [h]
  · intro xMap
    exact processMap_isOk xMap

/-- Witness for C2 amended: a present unparsable float read and a
present unparsable int read are hard failures, a present invalid bool
value is read as false without failing, and the unparsable door width
deep inside the concrete document xMapBad propagates to a failure of
readFromFile itself. -/
theorem C2_amended_witness :
    eIsOk (floatAttribute (.mk "wall" [("x1", "zz")] []) "x1" 0) = false ∧
    eIsOk (intAttribute (.mk "wall" [("material", "zz")] []) "material" 0) = false ∧
    boolAttribute (.mk "door" [("lr", "maybe")] []) "lr" false = false ∧
    eIsOk (readFromFile xMapBad none) = false := by
  refine ⟨(C2_amended.1 (.mk "wall" [("x1", "zz")] []) "x1" 0 "zz"
        (by decide)).2 (by decide),
    (C2_amended.2.1 (.mk "wall" [("material", "zz")] []) "material" 0 "zz"
        (by decide)).2 (by decide),
    (C2_amended.2.2.1 (.mk "door" [("lr", "maybe")] []) "lr" false "maybe"
        (by decide)).trans (by decide),
    (C2_amended.2.2.2 xMapBad).trans (by decide)⟩

/-- C8: a successfully parsed wall whose height attribute is absent or
parses to zero gets the owning floor's height, and one whose thickness
attribute is absent gets thickness 0.15 (= mkRat 15 100). -/
theorem C8_height_thickness_defaults (xW : XNode) (floorHeight : ℚ) (w : Wall)
    (hp : processWallAttrs floorHeight xW = .ok w) :
    ((tryGetAttribute xW "height" = none ∨
        (∃ s, tryGetAttribute xW "height" = some s ∧ stofQ s = .ok 0)) →
      w.height = floorHeight) ∧
    (tryGetAttribute xW "thickness" = none → w.thickness = mkRat 15 100) := by
  unfold processWallAttrs at hp
  cases h1 : intAttribute xW "material" 0 with
  | error e => rw [h1] at hp; simp [ebind] at hp
  | ok a1 =>
  rw [h1] at hp; simp only [ebind] at hp
  cases h2 : intAttribute xW "type" 0 with
  | error e => rw [h2] at hp; simp [ebind] at hp
  | ok a2 =>
  rw [h2] at hp; simp only [ebind] at hp
  cases h3 : floatAttribute xW "x1" 0 with
  | error e => rw [h3] at hp; simp [ebind] at hp
  | ok a3 =>
  rw [h3] at hp; simp only [ebind] at hp
  cases h4 : floatAttribute xW "y1" 0 with
  | error e => rw [h4] at hp; simp [ebind] at hp
  | ok a4 =>
  rw [h4] at hp; simp only [ebind] at hp
  cases h5 : floatAttribute xW "x2" 0 with
  | error e => rw [h5] at hp; simp [ebind] at hp
  | ok a5 =>
  rw [h5] at hp; simp only [ebind] at hp
  cases h6 : floatAttribute xW "y2" 0 with
  | error e => rw [h6] at hp; simp [ebind] at hp
  | ok a6 =>
  rw [h6] at hp; simp only [ebind] at hp
  cases h7 : floatAttributeNaN xW "height" with
  | error e => rw [h7] at hp; simp [ebind] at hp
  | ok hr =>
  rw [h7] at hp; simp only [ebind] at hp
  cases h8 : floatAttributeNaN xW "thickness" with
  | error e => rw [h8] at hp; simp [ebind] at hp
  | ok tr =>
  rw [h8] at hp; simp only [ebind, Except.ok.injEq] at hp
  subst hp
  constructor
  · rintro (habs | ⟨s, hs, hs0⟩)
    · have hn : floatAttributeNaN xW "height" = .ok none := by
        unfold floatAttributeNaN; rw [habs]
      rw [h7] at hn
      injection hn with hn
      subst hn
      rfl
    · have hz : floatAttributeNaN xW "height" = .ok (some 0) := by
        unfold floatAttributeNaN; rw [hs]; simp [hs0, Except.map]
      rw [h7] at hz
      injection hz with hz
      subst hz
      simp
  · intro habs
    have hn : floatAttributeNaN xW "thickness" = .ok none := by
      unfold floatAttributeNaN; rw [habs]
    rw [h8] at hn
    injection hn with hn
    subst hn
    rfl

/-- Witness for C8: the concrete wall element with height="0" and no
thickness attribute, parsed on a floor of height 3, gets height 3 and
thickness 0.15. -/
theorem C8_witness : wC8.height = 3 ∧ wC8.thickness = mkRat 15 100 := by
  have h := C8_height_thickness_defaults xWallC8 3 wC8 (by decide)
  exact ⟨h.1 (Or.inr ⟨"0", rfl, by decide⟩), h.2 rfl⟩

/-- natSqrt at 1. -/
theorem natSqrt_one : natSqrt 1 = 1 := rfl

/-- ratSqrt at 1, the length of the unit walls used below. -/
theorem ratSqrt_one : ratSqrt 1 = 1 := by
  unfold ratSqrt
  norm_num [natSqrt_one, Rat.num_one, Rat.den_one]

/-- generateWallSegments only writes the segments field. -/
theorem generateWallSegments_doors (w : Wall) :
    (generateWallSegments w).doors = w.doors := by
  unfold generateWallSegments; split <;> rfl

/-- C1 (code bug): on the concrete document xObsC1 (one wall with one
door), the wall stored in floor.walls is the shallow copy pushed at
enterWall time (no doors, no segments), while leaveWall receives the
fully populated wall (1 door, 3 segments): floor.walls does not hold the
value leaveWall receives. -/
theorem C1_divergence :
    (processObstacles nopListener xObsC1 floorC1).map
      (fun r => (r.1.walls.map fun w => (w.doors.length, w.segments.length),
                 r.2.map fun w => (w.doors.length, w.segments.length)))
    = .ok ([(0, 0)], [(1, 3)]) := by
  have h1 : processWallAttrs floorC1.height xWallC1 = .ok wallB := by decide
  have h2 : processDoorAttrs xDoorC1 = .ok doorB := by decide
  have h3 : namedChildren xObsC1 "wall" = [xWallC1] := rfl
  have h4 : namedChildren xWallC1 "door" = [xDoorC1] := rfl
  have h5 : namedChildren xWallC1 "window" = [] := rfl
  have h6 : (generateWallSegments
      { material := 0, type := 0, x1 := 0, y1 := 0, x2 := 1, y2 := 0,
        thickness := mkRat 15 100, height := 3, doors := [doorB],
        windows := [], segments := [] }).segments.length = 3 := by
    norm_num [generateWallSegments, doorB, openingSegs, doorSegsFrom,
      windowSegsFrom, mkDoorSeg, mkWindowSeg, sortByStartX, insertByStartX,
      stitch, wallSpan, Wall.start, Wall.endp, Point2D.normalized,
      Point2D.length, ratSqrt_one, Point2D.sub_def, Point2D.add_def,
      Point2D.mul_def, Point2D.div_def, Rat.mkRat_eq_div]
  simp only [processObstacles, h3, processWallList, processWall, h1, ebind,
    nopListener, h4, h5, processDoors, h2, processWindows, Except.map]
  simp [floorC1, emptyFloor, wallB, generateWallSegments_doors, h6]

/-- ebind with the trivial continuation. -/
theorem ebind_pure {α : Type} (x : Except String α) :
    ebind x (fun a => .ok a) = x := by
  cases x <;> rfl

/-- processWall reads nothing of the floor except its height. -/
theorem processWall_floor_height (L : IndoorListener) (f g : Floor)
    (h : f.height = g.height) (x : XNode) :
    processWall L f x = processWall L g x := by
  unfold processWall processWallAttrs
  rw [h]

/-- Removing a vetoed wall element from the element list does not change
the wall loop's result. -/
theorem processWallList_skip (L : IndoorListener) (floor : Floor) (x : XNode)
    (hv : processWall L floor x = .ok none) :
    ∀ (A B : List XNode),
      processWallList L floor (A ++ x :: B) = processWallList L floor (A ++ B)
  | [], B => by
    cases hB : processWallList L floor B <;>
      simp [processWallList, hv, ebind, hB]
  | a :: A, B => by
    simp only [List.cons_append, processWallList, List.append_eq,
      processWallList_skip L floor x hv A B]

/-- C5: an observer that vetoes a wall element produces exactly the
floor (and exactly the leaveWall call trace) that the same observer
produces on the document with that wall element removed: the vetoed wall
and its children are absent, leaveWall is not invoked for it, and every
sibling wall is parsed exactly as without it. -/
theorem C5_veto_frame (L : IndoorListener) (floor : Floor)
    (a : List (String × String)) (pre post : List XNode) (x : XNode)
    (hx : x.name = "wall")
    (hv : processWall L { floor with walls := L.enterWalls floor.walls } x = .ok none) :
    processObstacles L (.mk "obstacles" a (pre ++ x :: post)) floor =
      processObstacles L (.mk "obstacles" a (pre ++ post)) floor := by
  unfold processObstacles
  simp only [namedChildren, XNode.children]
  rw [List.filter_append, List.filter_cons_of_pos (by simp [hx]),
    List.filter_append, processWallList_skip L _ x hv]

/-- Witness for C5: the observer vetoing material ordinal 2 on the
three-wall document produces the same floor and leaveWall trace as the
two-wall document without the vetoed wall. -/
theorem C5_witness :
    processObstacles vetoMat2Listener
        (.mk "obstacles" [] [xWallM1, xWallM2, xWallM3]) emptyFloor =
      processObstacles vetoMat2Listener
        (.mk "obstacles" [] [xWallM1, xWallM3]) emptyFloor :=
  C5_veto_frame vetoMat2Listener emptyFloor [] [xWallM1] [xWallM3] xWallM2
    rfl (by decide)

/-- Inserting is a permutation of consing. -/
theorem insertByStartX_perm (s : WallSegment2D) :
    ∀ l : List WallSegment2D, (insertByStartX s l).Perm (s :: l)
  | [] => List.Perm.refl _
  | t :: rest => by
    unfold insertByStartX
    split
    · exact ((insertByStartX_perm s rest).cons t).trans (List.Perm.swap s t rest)
    · exact List.Perm.refl _

/-- The modelled std::sort call permutes its input. -/
theorem sortByStartX_perm : ∀ l : List WallSegment2D, (sortByStartX l).Perm l
  | [] => List.Perm.refl _
  | s :: rest =>
    (insertByStartX_perm s (sortByStartX rest)).trans
      ((sortByStartX_perm rest).cons s)

/-- A door segment is Door-typed. -/
theorem mkDoorSeg_type (w : Wall) (i : ℕ) (d : WallDoor) :
    (mkDoorSeg w i d).type = WallSegmentType.Door := by
  unfold mkDoorSeg
  dsimp only
  split <;> split <;> rfl

/-- A door segment carries its door index. -/
theorem mkDoorSeg_listIndex (w : Wall) (i : ℕ) (d : WallDoor) :
    (mkDoorSeg w i d).listIndex = (i : Int) := by
  unfold mkDoorSeg
  dsimp only
  split <;> split <;> rfl

/-- A window segment is Window-typed. -/
theorem mkWindowSeg_type (w : Wall) (i : ℕ) (win : WallWindow) :
    (mkWindowSeg w i win).type = WallSegmentType.Window := by
  unfold mkWindowSeg
  dsimp only
  split <;> rfl

/-- A window segment carries its window index. -/
theorem mkWindowSeg_listIndex (w : Wall) (i : ℕ) (win : WallWindow) :
    (mkWindowSeg w i win).listIndex = (i : Int) := by
  unfold mkWindowSeg
  dsimp only
  split <;> rfl

/-- One segment per door. -/
theorem doorSegsFrom_length (w : Wall) :
    ∀ (ds : List WallDoor) (i : ℕ), (doorSegsFrom w i ds).length = ds.length
  | [], _ => rfl
  | _ :: rest, i => by
    simp [doorSegsFrom, doorSegsFrom_length w rest (i + 1)]

/-- One segment per window. -/
theorem windowSegsFrom_length (w : Wall) :
    ∀ (ws : List WallWindow) (i : ℕ), (windowSegsFrom w i ws).length = ws.length
  | [], _ => rfl
  | _ :: rest, i => by
    simp [windowSegsFrom, windowSegsFrom_length w rest (i + 1)]

/-- The number of door/window segments of a wall. -/
theorem openingSegs_length (w : Wall) :
    (openingSegs w).length = w.doors.length + w.windows.length := by
  simp [openingSegs, doorSegsFrom_length, windowSegsFrom_length]

/-- Every element of the door loop's output is the door segment of one
of the doors, with the matching index. -/
theorem mem_doorSegsFrom (w : Wall) :
    ∀ (ds : List WallDoor) (i : ℕ) (s : WallSegment2D),
      s ∈ doorSegsFrom w i ds →
      ∃ j : ℕ, ∃ hj : j < ds.length, s = mkDoorSeg w (i + j) (ds.get ⟨j, hj⟩)
  | [], _, s, h => by simp [doorSegsFrom] at h
  | d :: rest, i, s, h => by
    simp only [doorSegsFrom, List.mem_cons] at h
    rcases h with h | h
    · exact ⟨0, by simp, by simpa using h⟩
    · obtain ⟨j, hj, hseq⟩ := mem_doorSegsFrom w rest (i + 1) s h
      refine ⟨j + 1, by simpa using hj, ?_⟩
      rw [hseq]
      congr 1
      omega

/-- Every element of the window loop's output is the window segment of
one of the windows, with the matching index. -/
theorem mem_windowSegsFrom (w : Wall) :
    ∀ (ws : List WallWindow) (i : ℕ) (s : WallSegment2D),
      s ∈ windowSegsFrom w i ws →
      ∃ j : ℕ, ∃ hj : j < ws.length, s = mkWindowSeg w (i + j) (ws.get ⟨j, hj⟩)
  | [], _, s, h => by simp [windowSegsFrom] at h
  | d :: rest, i, s, h => by
    simp only [windowSegsFrom, List.mem_cons] at h
    rcases h with h | h
    · exact ⟨0, by simp, by simpa using h⟩
    · obtain ⟨j, hj, hseq⟩ := mem_windowSegsFrom w rest (i + 1) s h
      refine ⟨j + 1, by simpa using hj, ?_⟩
      rw [hseq]
      congr 1
      omega

/-- The stitching loop emits 2k+1 segments for k ≥ 1 openings. -/
theorem stitch_length (e : Point2D) :
    ∀ (l : List WallSegment2D) (cur : Point2D), l ≠ [] →
      (stitch e cur l).length = 2 * l.length + 1
  | [], _, h => absurd rfl h
  | [_], _, _ => rfl
  | s :: s2 :: rest, cur, _ => by
    have ih := stitch_length e (s2 :: rest) s.endp (by simp)
    simp only [stitch, List.length_cons, ih]
    omega

/-- The stitching loop's output is one continuous polyline from wStart
to wEnd. -/
theorem stitch_chain (e : Point2D) :
    ∀ (l : List WallSegment2D) (cur : Point2D), l ≠ [] →
      chainFrom cur (stitch e cur l) e = true
  | [], _, h => absurd rfl h
  | [s], cur, _ => by simp [stitch, chainFrom]
  | s :: s2 :: rest, cur, _ => by
    have ih := stitch_chain e (s2 :: rest) s.endp (by simp)
    simp [stitch, chainFrom, ih]

/-- Every stitched segment is an opening or a filler. -/
theorem mem_stitch (e : Point2D) :
    ∀ (l : List WallSegment2D) (cur : Point2D) (s : WallSegment2D),
      s ∈ stitch e cur l →
      s ∈ l ∨ (s.type = WallSegmentType.Wall ∧ s.listIndex = -1)
  | [], _, s, h => by simp [stitch] at h
  | [t], cur, s, h => by
    simp only [stitch, List.mem_cons, List.not_mem_nil, or_false] at h
    rcases h with h | h | h
    · subst h; exact Or.inr ⟨rfl, rfl⟩
    · subst h; exact Or.inl (by simp)
    · subst h; exact Or.inr ⟨rfl, rfl⟩
  | t :: t2 :: rest, cur, s, h => by
    simp only [stitch, List.mem_cons] at h
    rcases h with h | h | h
    · subst h; exact Or.inr ⟨rfl, rfl⟩
    · subst h; exact Or.inl (by simp)
    · rcases mem_stitch e (t2 :: rest) t.endp s h with h2 | h2
      · exact Or.inl (List.mem_cons_of_mem _ h2)
      · exact Or.inr h2

/-- Filtering with a predicate that rejects fillers commutes with
stitching. -/
theorem stitch_filter (e : Point2D) (p : WallSegment2D → Bool)
    (hp : ∀ a b, p ⟨-1, .Wall, a, b⟩ = false) :
    ∀ (l : List WallSegment2D) (cur : Point2D),
      (stitch e cur l).filter p = l.filter p
  | [], _ => rfl
  | [s], cur => by
    simp [stitch, List.filter_cons, hp]
  | s :: s2 :: rest, cur => by
    have ih := stitch_filter e p hp (s2 :: rest) s.endp
    simp [stitch, List.filter_cons, hp, ih]

/-- Even positions of the stitched output are fillers. -/
theorem stitch_getElem_even (e : Point2D) :
    ∀ (l : List WallSegment2D) (cur : Point2D) (j : ℕ)
      (hj : j < (stitch e cur l).length), j % 2 = 0 →
      ((stitch e cur l)[j].type = WallSegmentType.Wall ∧
       (stitch e cur l)[j].listIndex = -1)
  | [], _, j, hj, _ => by simp [stitch] at hj
  | [s], cur, 0, _, _ => ⟨rfl, rfl⟩
  | [s], cur, 1, _, hpar => by omega
  | [s], cur, 2, _, _ => ⟨rfl, rfl⟩
  | [s], cur, j + 3, hj, _ => by simp [stitch] at hj
  | s :: s2 :: rest, cur, 0, _, _ => ⟨rfl, rfl⟩
  | s :: s2 :: rest, cur, 1, _, hpar => by omega
  | s :: s2 :: rest, cur, j + 2, hj, hpar => by
    have hj2 : j < (stitch e s.endp (s2 :: rest)).length := by
      simpa [stitch] using hj
    have := stitch_getElem_even e (s2 :: rest) s.endp j hj2 (by omega)
    simpa [stitch] using this

/-- Odd positions of the stitched output are the openings. -/
theorem stitch_getElem_odd (e : Point2D) :
    ∀ (l : List WallSegment2D) (cur : Point2D) (j : ℕ)
      (hj : j < (stitch e cur l).length), j % 2 = 1 →
      (stitch e cur l)[j] ∈ l
  | [], _, j, hj, _ => by simp [stitch] at hj
  | [s], cur, 0, _, hpar => by omega
  | [s], cur, 1, _, _ => by simp [stitch]
  | [s], cur, 2, _, hpar => by omega
  | [s], cur, j + 3, hj, _ => by simp [stitch] at hj
  | s :: s2 :: rest, cur, 0, _, hpar => by omega
  | s :: s2 :: rest, cur, 1, _, _ => by simp [stitch]
  | s :: s2 :: rest, cur, j + 2, hj, hpar => by
    have hj2 : j < (stitch e s.endp (s2 :: rest)).length := by
      simpa [stitch] using hj
    have := stitch_getElem_odd e (s2 :: rest) s.endp j hj2 (by omega)
    have hmem : (stitch e cur (s :: s2 :: rest))[j + 2] ∈ s2 :: rest := by
      simpa [stitch] using this
    exact List.mem_cons_of_mem _ hmem

/-- C10: with k ≥ 1 openings, generateWallSegments emits exactly 2k+1
segments, strictly alternating between Wall-type fillers (even
positions, listIndex -1) and door/window segments (odd positions),
beginning and ending with a filler; every Door-typed (resp.
Window-typed) segment carries a listIndex that indexes the wall's doors
(resp. windows) sequence. -/
theorem C10_segment_structure (w : Wall) (hs : w.segments = [])
    (hk : 1 ≤ w.doors.length + w.windows.length) :
    ((generateWallSegments w).segments).length
        = 2 * (w.doors.length + w.windows.length) + 1 ∧
    (∀ (j : ℕ) (hj : j < ((generateWallSegments w).segments).length),
        (j % 2 = 0 →
          ((generateWallSegments w).segments)[j].type = WallSegmentType.Wall ∧
          ((generateWallSegments w).segments)[j].listIndex = -1) ∧
        (j % 2 = 1 →
          ((generateWallSegments w).segments)[j].type ≠ WallSegmentType.Wall)) ∧
    (∀ s ∈ (generateWallSegments w).segments,
        s.type = WallSegmentType.Door →
        ∃ j : ℕ, j < w.doors.length ∧ s.listIndex = (j : Int)) ∧
    (∀ s ∈ (generateWallSegments w).segments,
        s.type = WallSegmentType.Window →
        ∃ j : ℕ, j < w.windows.length ∧ s.listIndex = (j : Int)) := by
  have hne : ¬(w.doors.length = 0 ∧ w.windows.length = 0) := by omega
  have hgen : (generateWallSegments w).segments
      = stitch (wallSpan w).2 (wallSpan w).1 (sortByStartX (openingSegs w)) := by
    unfold generateWallSegments
    rw [if_neg hne]
    simp [hs]
  have hperm : (sortByStartX (openingSegs w)).Perm (openingSegs w) :=
    sortByStartX_perm _
  have hlen : (sortByStartX (openingSegs w)).length
      = w.doors.length + w.windows.length := by
    rw [hperm.length_eq, openingSegs_length]
  have hnil : sortByStartX (openingSegs w) ≠ [] := by
    intro h0
    rw [h0] at hlen
    simp at hlen
    omega
  have hOpen : ∀ s ∈ openingSegs w,
      (s.type = WallSegmentType.Door →
        ∃ j : ℕ, j < w.doors.length ∧ s.listIndex = (j : Int)) ∧
      (s.type = WallSegmentType.Window →
        ∃ j : ℕ, j < w.windows.length ∧ s.listIndex = (j : Int)) ∧
      s.type ≠ WallSegmentType.Wall := by
    intro s hmem
    rcases List.mem_append.1 (by simpa [openingSegs] using hmem) with hm | hm
    · obtain ⟨j, hj, rfl⟩ := mem_doorSegsFrom w _ _ _ hm
      refine ⟨fun _ => ⟨j, by simpa using hj, by simp [mkDoorSeg_listIndex]⟩,
        fun hT => ?_, fun hT => ?_⟩ <;> simp [mkDoorSeg_type] at hT
    · obtain ⟨j, hj, rfl⟩ := mem_windowSegsFrom w _ _ _ hm
      refine ⟨fun hT => ?_,
        fun _ => ⟨j, by simpa using hj, by simp [mkWindowSeg_listIndex]⟩,
        fun hT => ?_⟩ <;> simp [mkWindowSeg_type] at hT
  refine ⟨?_, ?_, ?_, ?_⟩
  · rw [hgen, stitch_length _ _ _ hnil, hlen]
  · intro j hj
    rw [hgen] at hj
    constructor
    · intro hpar
      have := stitch_getElem_even (wallSpan w).2 _ (wallSpan w).1 j hj hpar
      simpa [hgen] using this
    · intro hpar
      have hmem := stitch_getElem_odd (wallSpan w).2 _ (wallSpan w).1 j hj hpar
      have hmem2 := hperm.mem_iff.1 hmem
      have := (hOpen _ hmem2).2.2
      simpa [hgen] using this
  · intro s hmem htype
    rw [hgen] at hmem
    rcases mem_stitch _ _ _ _ hmem with hm | ⟨hW, _⟩
    · exact (hOpen _ (hperm.mem_iff.1 hm)).1 htype
    · rw [htype] at hW
      cases hW
  · intro s hmem htype
    rw [hgen] at hmem
    rcases mem_stitch _ _ _ _ hmem with hm | ⟨hW, _⟩
    · exact (hOpen _ (hperm.mem_iff.1 hm)).2.1 htype
    · rw [htype] at hW
      cases hW

/-- Witness for C10 on the one-door wall wallA. -/
theorem C10_witness :
    ((generateWallSegments wallA).segments).length
        = 2 * (wallA.doors.length + wallA.windows.length) + 1 ∧
    (∀ (j : ℕ) (hj : j < ((generateWallSegments wallA).segments).length),
        (j % 2 = 0 →
          ((generateWallSegments wallA).segments)[j].type = WallSegmentType.Wall ∧
          ((generateWallSegments wallA).segments)[j].listIndex = -1) ∧
        (j % 2 = 1 →
          ((generateWallSegments wallA).segments)[j].type ≠ WallSegmentType.Wall)) ∧
    (∀ s ∈ (generateWallSegments wallA).segments,
        s.type = WallSegmentType.Door →
        ∃ j : ℕ, j < wallA.doors.length ∧ s.listIndex = (j : Int)) ∧
    (∀ s ∈ (generateWallSegments wallA).segments,
        s.type = WallSegmentType.Window →
        ∃ j : ℕ, j < wallA.windows.length ∧ s.listIndex = (j : Int)) :=
  C10_segment_structure wallA rfl (by simp [wallA])

/-- In the presence of openings, the output is the stitched sorted
opening list. -/
theorem generateWallSegments_eq_stitch (w : Wall) (hs : w.segments = [])
    (hne : ¬(w.doors.length = 0 ∧ w.windows.length = 0)) :
    (generateWallSegments w).segments
      = stitch (wallSpan w).2 (wallSpan w).1 (sortByStartX (openingSegs w)) := by
  unfold generateWallSegments
  rw [if_neg hne]
  simp [hs]

/-- With at least one opening the sorted opening list is nonempty. -/
theorem sortByStartX_openings_ne_nil (w : Wall)
    (hk : 1 ≤ w.doors.length + w.windows.length) :
    sortByStartX (openingSegs w) ≠ [] := by
  intro h0
  have hlen := (sortByStartX_perm (openingSegs w)).length_eq
  rw [h0, openingSegs_length] at hlen
  simp at hlen
  omega

/-- C4 counterexample: the claim requires the emitted polyline to begin
at the endpoint with the smaller x-coordinate; the wall (5,0)-(0,0) with
no openings (the precondition holds vacuously) emits the single segment
(5,0)→(0,0), so the chain from the smaller-x endpoint (0,0) to (5,0)
fails. -/
theorem C4_counterexample :
    SegPrecondition wallC4 ∧
    chainFrom (wallSpan wallC4).1 ((generateWallSegments wallC4).segments)
      (wallSpan wallC4).2 = false := by
  constructor
  · decide
  · decide

/-- C4 amended: under the no-overlap precondition, for a wall with at
least one opening the emitted segments form one continuous gapless
polyline from the smaller-x endpoint to the other endpoint (zero-length
fillers included); a wall with no openings emits the single Wall-type
segment from (x1,y1) to (x2,y2) as given, without x-reordering. -/
theorem C4_amended_polyline (w : Wall) (hs : w.segments = [])
    (hpre : SegPrecondition w) :
    (1 ≤ w.doors.length + w.windows.length →
      chainFrom (wallSpan w).1 ((generateWallSegments w).segments)
        (wallSpan w).2 = true) ∧
    (w.doors = [] → w.windows = [] →
      (generateWallSegments w).segments = [⟨-1, .Wall, w.start, w.endp⟩]) := by
  constructor
  · intro hk
    rw [generateWallSegments_eq_stitch w hs (by omega)]
    exact stitch_chain _ _ _ (sortByStartX_openings_ne_nil w hk)
  · intro hd hw
    simp [generateWallSegments, hd, hw, hs]

/-- Witness for C4 amended on the one-door wall wallA. -/
theorem C4_witness :
    (1 ≤ wallA.doors.length + wallA.windows.length →
      chainFrom (wallSpan wallA).1 ((generateWallSegments wallA).segments)
        (wallSpan wallA).2 = true) ∧
    (wallA.doors = [] → wallA.windows = [] →
      (generateWallSegments wallA).segments = [⟨-1, .Wall, wallA.start, wallA.endp⟩]) :=
  C4_amended_polyline wallA rfl (by decide)

/-- C3 counterexample: segmentation is not invariant (even up to point
reversal) under a plain endpoint swap.  The unit wall (0,0)-(1,0) with a
door at fractional position 1/5 and width 1/10 segments its door to
[1/5, 3/10]; the swapped wall anchors the same door at 1 - 1/5 = 4/5 and
extends it to [7/10, 4/5]. -/
theorem C3_counterexample :
    ¬ segEqUpToRev ((generateWallSegments (endpointSwap wallA)).segments)
        ((generateWallSegments wallA).segments) := by
  have hA : (generateWallSegments wallA).segments =
      [⟨-1, .Wall, ⟨0, 0⟩, ⟨1/5, 0⟩⟩, ⟨0, .Door, ⟨1/5, 0⟩, ⟨3/10, 0⟩⟩,
       ⟨-1, .Wall, ⟨3/10, 0⟩, ⟨1, 0⟩⟩] := by
    norm_num [generateWallSegments, wallA, doorA, openingSegs, doorSegsFrom,
      windowSegsFrom, mkDoorSeg, mkWindowSeg, sortByStartX, insertByStartX,
      stitch, wallSpan, Wall.start, Wall.endp, Point2D.normalized,
      Point2D.length, ratSqrt_one, Point2D.sub_def, Point2D.add_def,
      Point2D.mul_def, Point2D.div_def]
  have hB : (generateWallSegments (endpointSwap wallA)).segments =
      [⟨-1, .Wall, ⟨0, 0⟩, ⟨7/10, 0⟩⟩, ⟨0, .Door, ⟨7/10, 0⟩, ⟨4/5, 0⟩⟩,
       ⟨-1, .Wall, ⟨4/5, 0⟩, ⟨1, 0⟩⟩] := by
    norm_num [generateWallSegments, endpointSwap, wallA, doorA, openingSegs,
      doorSegsFrom, windowSegsFrom, mkDoorSeg, mkWindowSeg, sortByStartX,
      insertByStartX, stitch, wallSpan, Wall.start, Wall.endp,
      Point2D.normalized, Point2D.length, ratSqrt_one, Point2D.sub_def,
      Point2D.add_def, Point2D.mul_def, Point2D.div_def]
  rw [hB, hA]
  norm_num [segEqUpToRev, revPoints]

/-- mirrorSwapWall swaps the endpoints: new start. -/
theorem mirrorSwapWall_start (w : Wall) : (mirrorSwapWall w).start = w.endp := rfl

/-- mirrorSwapWall swaps the endpoints: new end. -/
theorem mirrorSwapWall_endp (w : Wall) : (mirrorSwapWall w).endp = w.start := rfl

/-- mirrorSwapWall mirrors the doors. -/
theorem mirrorSwapWall_doors (w : Wall) :
    (mirrorSwapWall w).doors = w.doors.map mirrorDoor := rfl

/-- mirrorSwapWall mirrors the windows. -/
theorem mirrorSwapWall_windows (w : Wall) :
    (mirrorSwapWall w).windows = w.windows.map mirrorWindow := rfl

/-- mirrorSwapWall keeps the segments field. -/
theorem mirrorSwapWall_segments (w : Wall) :
    (mirrorSwapWall w).segments = w.segments := rfl

/-- Vector length is invariant under reversing the difference. -/
theorem length_neg_sub (a b : Point2D) : (a - b).length = (b - a).length := by
  unfold Point2D.length
  congr 1
  simp only [Point2D.sub_def]
  ring

/-- natSqrtAux is positive for positive input and fuel. -/
theorem natSqrtAux_pos (n : ℕ) :
    ∀ k : ℕ, 1 ≤ k → 1 ≤ n → 1 ≤ natSqrtAux n k
  | 0, hk, _ => absurd hk (by omega)
  | k + 1, _, hn => by
    unfold natSqrtAux
    split
    · omega
    · next hcond =>
      cases k with
      | zero => exact absurd (by simpa using hn) hcond
      | succ k2 => exact natSqrtAux_pos n (k2 + 1) (by omega) hn

/-- natSqrt is positive on positive input. -/
theorem natSqrt_pos (n : ℕ) (hn : 1 ≤ n) : 1 ≤ natSqrt n :=
  natSqrtAux_pos n n hn hn

/-- ratSqrt is positive on positive input. -/
theorem ratSqrt_pos (q : ℚ) (hq : 0 < q) : 0 < ratSqrt q := by
  unfold ratSqrt
  rw [if_neg (not_le.mpr hq)]
  apply div_pos
  · have hnum : 1 ≤ q.num.toNat := by
      have := Rat.num_pos.2 hq
      omega
    have hden : 1 ≤ q.den := q.pos
    have h1 : 1 ≤ q.num.toNat * q.den := Nat.one_le_iff_ne_zero.2 (by positivity)
    exact_mod_cast Nat.lt_of_lt_of_le Nat.zero_lt_one (natSqrt_pos _ h1)
  · exact_mod_cast q.pos

/-- The x-component of the normalized direction of a non-vertical
difference is nonzero. -/
theorem normalized_x_ne_zero (a b : Point2D) (hx : a.x ≠ b.x) :
    ((b - a).normalized).x ≠ 0 := by
  unfold Point2D.normalized Point2D.length
  simp only [Point2D.sub_def, Point2D.div_def]
  have ht : b.x - a.x ≠ 0 := sub_ne_zero.2 fun h => hx h.symm
  have hpos : 0 < ratSqrt ((b.x - a.x) * (b.x - a.x) + (b.y - a.y) * (b.y - a.y)) := by
    apply ratSqrt_pos
    nlinarith [mul_self_pos.2 ht, mul_self_nonneg (b.y - a.y)]
  exact div_ne_zero ht (ne_of_gt hpos)

/-- A mirrored door on the endpoint-swapped wall has exactly the
original door's absolute footprint segment. -/
theorem mkDoorSeg_mirrorSwap (w : Wall) (i : ℕ) (d : WallDoor) :
    mkDoorSeg (mirrorSwapWall w) i (mirrorDoor d) = mkDoorSeg w i d := by
  have hL : (w.start - w.endp).length = (w.endp - w.start).length :=
    length_neg_sub _ _
  unfold mkDoorSeg
  rw [mirrorSwapWall_start, mirrorSwapWall_endp]
  dsimp only
  have hanchor : w.endp + (w.start - w.endp) * (mirrorDoor d).atLinePos
      = w.start + (w.endp - w.start) * d.atLinePos := by
    simp only [mirrorDoor, Point2D.add_def, Point2D.sub_def, Point2D.mul_def,
      Point2D.mk.injEq]
    constructor <;> ring
  have hoff : (w.start - w.endp).normalized *
        (if (mirrorDoor d).leftRight then -(mirrorDoor d).width
         else (mirrorDoor d).width)
      = (w.endp - w.start).normalized *
          (if d.leftRight then -d.width else d.width) := by
    unfold Point2D.normalized
    rw [hL]
    cases hlr : d.leftRight <;>
      simp [mirrorDoor, hlr, Point2D.sub_def, Point2D.div_def,
        Point2D.mul_def, Point2D.mk.injEq] <;>
      constructor <;> ring
  rw [hanchor, hoff]

/-- A mirrored window on the endpoint-swapped non-vertical wall has
exactly the original window's absolute footprint segment. -/
theorem mkWindowSeg_mirrorSwap (w : Wall) (hx : w.x1 ≠ w.x2) (i : ℕ)
    (win : WallWindow) :
    mkWindowSeg (mirrorSwapWall w) i (mirrorWindow win) = mkWindowSeg w i win := by
  have hL : (w.start - w.endp).length = (w.endp - w.start).length :=
    length_neg_sub _ _
  unfold mkWindowSeg
  rw [mirrorSwapWall_start, mirrorSwapWall_endp]
  dsimp only
  have hcenter : w.endp + (w.start - w.endp) * (mirrorWindow win).atLinePos
      = w.start + (w.endp - w.start) * win.atLinePos := by
    simp only [mirrorWindow, Point2D.add_def, Point2D.sub_def, Point2D.mul_def,
      Point2D.mk.injEq]
    constructor <;> ring
  have hsw : w.endp + (w.start - w.endp) * (mirrorWindow win).atLinePos -
        (w.start - w.endp).normalized * ((mirrorWindow win).width / 2)
      = w.start + (w.endp - w.start) * win.atLinePos +
          (w.endp - w.start).normalized * (win.width / 2) := by
    unfold Point2D.normalized
    rw [hL]
    simp only [mirrorWindow, Point2D.add_def, Point2D.sub_def, Point2D.mul_def,
      Point2D.div_def, Point2D.mk.injEq]
    constructor <;> ring
  have hew : w.endp + (w.start - w.endp) * (mirrorWindow win).atLinePos +
        (w.start - w.endp).normalized * ((mirrorWindow win).width / 2)
      = w.start + (w.endp - w.start) * win.atLinePos -
          (w.endp - w.start).normalized * (win.width / 2) := by
    unfold Point2D.normalized
    rw [hL]
    simp only [mirrorWindow, Point2D.add_def, Point2D.sub_def, Point2D.mul_def,
      Point2D.div_def, Point2D.mk.injEq]
    constructor <;> ring
  rw [hsw, hew]
  set c := w.start + (w.endp - w.start) * win.atLinePos with hc
  set o := (w.endp - w.start).normalized * (win.width / 2) with ho
  rcases lt_trichotomy (c + o).x (c - o).x with h | h | h
  · rw [if_neg (by rw [not_lt]; exact le_of_lt h), if_pos h]
  · rw [if_neg (by rw [not_lt, h]), if_neg (by rw [not_lt, h])]
    have hzero : o = ⟨0, 0⟩ := by
      have hxo : o.x = 0 := by
        have := h
        simp only [Point2D.add_def, Point2D.sub_def] at this
        linarith [this]
      have hnx : ((w.endp - w.start).normalized).x ≠ 0 := by
        have := normalized_x_ne_zero w.start w.endp (by
          simpa [Wall.start, Wall.endp] using hx)
        simpa using this
      have hwidth : win.width / 2 = 0 := by
        rw [ho] at hxo
        simp only [Point2D.mul_def] at hxo
        rcases mul_eq_zero.1 hxo with h0 | h0
        · exact absurd h0 hnx
        · exact h0
      rw [ho, hwidth]
      simp [Point2D.mul_def]
    rw [hzero]
    simp [Point2D.add_def, Point2D.sub_def]
  · rw [if_pos h, if_neg (by rw [not_lt]; exact le_of_lt h)]

/-- The whole door loop is invariant under mirrorSwapWall. -/
theorem doorSegsFrom_mirrorSwap (w : Wall) :
    ∀ (ds : List WallDoor) (i : ℕ),
      doorSegsFrom (mirrorSwapWall w) i (ds.map mirrorDoor) = doorSegsFrom w i ds
  | [], _ => rfl
  | d :: rest, i => by
    simp only [List.map_cons, doorSegsFrom, mkDoorSeg_mirrorSwap,
      doorSegsFrom_mirrorSwap w rest (i + 1)]

/-- The whole window loop is invariant under mirrorSwapWall on a
non-vertical wall. -/
theorem windowSegsFrom_mirrorSwap (w : Wall) (hx : w.x1 ≠ w.x2) :
    ∀ (ws : List WallWindow) (i : ℕ),
      windowSegsFrom (mirrorSwapWall w) i (ws.map mirrorWindow) = windowSegsFrom w i ws
  | [], _ => rfl
  | win :: rest, i => by
    simp only [List.map_cons, windowSegsFrom, mkWindowSeg_mirrorSwap w hx,
      windowSegsFrom_mirrorSwap w hx rest (i + 1)]

/-- The opening segments are invariant under mirrorSwapWall on a
non-vertical wall. -/
theorem openingSegs_mirrorSwap (w : Wall) (hx : w.x1 ≠ w.x2) :
    openingSegs (mirrorSwapWall w) = openingSegs w := by
  unfold openingSegs
  rw [mirrorSwapWall_doors, mirrorSwapWall_windows,
    doorSegsFrom_mirrorSwap, windowSegsFrom_mirrorSwap w hx]

/-- The x-ordered endpoint pair is invariant under the endpoint swap on
a non-vertical wall. -/
theorem wallSpan_mirrorSwap (w : Wall) (hx : w.x1 ≠ w.x2) :
    wallSpan (mirrorSwapWall w) = wallSpan w := by
  unfold wallSpan
  rw [mirrorSwapWall_start, mirrorSwapWall_endp]
  simp only [Wall.start, Wall.endp]
  rcases lt_trichotomy w.x1 w.x2 with h | h | h
  · rw [if_pos h, if_neg (not_lt.mpr (le_of_lt h))]
  · exact absurd h hx
  · rw [if_neg (not_lt.mpr (le_of_lt h)), if_pos h]

/-- C3 amended: swapping a non-vertical wall's endpoints yields, up to
point-sequence reversal, the same segmentation output, provided each
opening is repositioned with it (fractional position p replaced by
1 - p, door hinge-side flag flipped) so that it keeps its absolute
footprint; with openings present the output is even identical, with no
openings the single segment's points are reversed.  (Without the
repositioning the output moves, see the counterexample.) -/
theorem C3_amended_mirror_swap (w : Wall) (hx : w.x1 ≠ w.x2)
    (hs : w.segments = []) :
    segEqUpToRev ((generateWallSegments (mirrorSwapWall w)).segments)
      ((generateWallSegments w).segments) := by
  by_cases hk : w.doors.length = 0 ∧ w.windows.length = 0
  · right
    obtain ⟨hd0, hw0⟩ := hk
    have hd : w.doors = [] := List.length_eq_zero.1 hd0
    have hw : w.windows = [] := List.length_eq_zero.1 hw0
    have h1 : (generateWallSegments (mirrorSwapWall w)).segments =
        [⟨-1, .Wall, w.endp, w.start⟩] := by
      simp [generateWallSegments, mirrorSwapWall_doors, mirrorSwapWall_windows,
        mirrorSwapWall_segments, mirrorSwapWall_start, mirrorSwapWall_endp,
        hd, hw, hs]
    have h2 : (generateWallSegments w).segments =
        [⟨-1, .Wall, w.start, w.endp⟩] := by
      simp [generateWallSegments, hd, hw, hs]
    rw [h1, h2]
    rfl
  · left
    have hne' : ¬((mirrorSwapWall w).doors.length = 0 ∧
        (mirrorSwapWall w).windows.length = 0) := by
      simpa [mirrorSwapWall_doors, mirrorSwapWall_windows] using hk
    rw [generateWallSegments_eq_stitch _ (by rw [mirrorSwapWall_segments]; exact hs) hne',
      generateWallSegments_eq_stitch w hs hk,
      openingSegs_mirrorSwap w hx, wallSpan_mirrorSwap w hx]

/-- Witness for C3 amended on the non-vertical one-door wall wallA. -/
theorem C3_witness :
    segEqUpToRev ((generateWallSegments (mirrorSwapWall wallA)).segments)
      ((generateWallSegments wallA).segments) :=
  C3_amended_mirror_swap wallA (by decide) rfl

/-- Below an offset, the door loop contains no segment with the given
index. -/
theorem doorSegsFrom_filter_none (w : Wall) (k : ℕ) :
    ∀ (ds : List WallDoor) (b : ℕ), k < b →
      (doorSegsFrom w b ds).filter
          (fun s => s.type == WallSegmentType.Door && s.listIndex == (k : Int)) = []
  | [], _, _ => rfl
  | d :: rest, b, hk => by
    have hcond : (WallSegmentType.Door == WallSegmentType.Door &&
        ((b : Int) == (k : Int))) = false := by
      simp
      omega
    simp only [doorSegsFrom, List.filter_cons, mkDoorSeg_type,
      mkDoorSeg_listIndex]
    rw [hcond]
    simp only [Bool.false_eq_true, if_false]
    exact doorSegsFrom_filter_none w k rest (b + 1) (by omega)

/-- The door loop contains exactly one segment with a given in-range
index: that door's segment. -/
theorem doorSegsFrom_filter_eq (w : Wall) (k : ℕ) :
    ∀ (ds : List WallDoor) (b j : ℕ) (d : WallDoor), b + j = k →
      ∀ hj : j < ds.length, ds.get ⟨j, hj⟩ = d →
      (doorSegsFrom w b ds).filter
          (fun s => s.type == WallSegmentType.Door && s.listIndex == (k : Int)) =
        [mkDoorSeg w k d]
  | [], b, j, d, hbj, hj, hget => by simp at hj
  | d0 :: rest, b, 0, d, hbj, hj, hget => by
    have hb : b = k := by omega
    have hd : d0 = d := by simpa using hget
    subst hb
    subst hd
    simp only [doorSegsFrom, List.filter_cons, mkDoorSeg_type,
      mkDoorSeg_listIndex, beq_self_eq_true, Bool.and_self, if_true, reduceIte]
    rw [doorSegsFrom_filter_none w b rest (b + 1) (by omega)]
  | d0 :: rest, b, j + 1, d, hbj, hj, hget => by
    have hcond : (WallSegmentType.Door == WallSegmentType.Door &&
        ((b : Int) == (k : Int))) = false := by
      simp
      omega
    have hget2 : rest.get ⟨j, by simpa using hj⟩ = d := by
      simpa using hget
    simp only [doorSegsFrom, List.filter_cons, mkDoorSeg_type,
      mkDoorSeg_listIndex]
    rw [hcond]
    simp only [Bool.false_eq_true, if_false]
    exact doorSegsFrom_filter_eq w k rest (b + 1) j d (by omega)
      (by simpa using hj) hget2

/-- The window loop contains no Door-typed segment. -/
theorem windowSegsFrom_filter_door (w : Wall) (k : ℕ) :
    ∀ (ws : List WallWindow) (b : ℕ),
      (windowSegsFrom w b ws).filter
          (fun s => s.type == WallSegmentType.Door && s.listIndex == (k : Int)) = []
  | [], _ => rfl
  | win :: rest, b => by
    simp only [windowSegsFrom, List.filter_cons, mkWindowSeg_type]
    rw [if_neg (by simp)]
    exact windowSegsFrom_filter_door w k rest (b + 1)

/-- C6: for every door i of a wall, the unique Door-typed output segment
carrying listIndex i is exactly the segment of the claim's formula:
anchor = start + (end - start) * p, extended from the anchor by
width * normalized(end - start), backward when leftRight is true and
forward otherwise, the two points then x-ordered (mkDoorSeg). -/
theorem C6_door_segment_formula (w : Wall) (i : ℕ) (hi : i < w.doors.length)
    (hs : w.segments = []) :
    ((generateWallSegments w).segments).filter
        (fun s => s.type == WallSegmentType.Door && s.listIndex == (i : Int)) =
      [mkDoorSeg w i (w.doors.get ⟨i, hi⟩)] := by
  have hne : ¬(w.doors.length = 0 ∧ w.windows.length = 0) := by omega
  rw [generateWallSegments_eq_stitch w hs hne,
    stitch_filter _ _ (fun a b => by simp)]
  have hperm := (sortByStartX_perm (openingSegs w)).filter
      (fun s => s.type == WallSegmentType.Door && s.listIndex == (i : Int))
  have hrhs : (openingSegs w).filter
      (fun s => s.type == WallSegmentType.Door && s.listIndex == (i : Int)) =
      [mkDoorSeg w i (w.doors.get ⟨i, hi⟩)] := by
    unfold openingSegs
    rw [List.filter_append,
      doorSegsFrom_filter_eq w i w.doors 0 i (w.doors.get ⟨i, hi⟩)
        (by omega) hi rfl,
      windowSegsFrom_filter_door w i w.windows 0]
    simp
  rw [hrhs] at hperm
  exact List.perm_singleton.1 hperm

/-- Witness for C6: the door of wallA. -/
theorem C6_witness :
    ((generateWallSegments wallA).segments).filter
        (fun s => s.type == WallSegmentType.Door && s.listIndex == ((0 : ℕ) : Int)) =
      [mkDoorSeg wallA 0 (wallA.doors.get ⟨0, by simp [wallA]⟩)] :=
  C6_door_segment_formula wallA 0 (by simp [wallA]) rfl

end IndoorMap
